import Mathlib

/-!
Framed TCP transport (`mtproto/connection_tcp.h`).

A shallow embedding of `MTP::internal::AbstractTCPConnection` and
`MTP::internal::TCPConnection`.

The header `connection_tcp.h` defines `fourCharsToUInt` inline and declares the
members, the slots and the `Status` enumeration; the bodies of the other member
functions live in `connection_tcp.cpp`, which is not among the sources.  Those
bodies are modelled from the specification; each such definition says so in its
doc comment.

Bytes are natural numbers (a byte is a value below 256), a `char` is an integer
in `-128 .. 127`, a `uint32` is a natural number reduced modulo `2 ^ 32`.
-/

namespace MTP
namespace internal

/-! ## Chars, bytes and 32-bit words -/

/-- Byte stored in memory for a `char` value: the two's complement object
representation, so `-1` is stored as `0xFF`. -/
def charByte (c : Int) : Nat := (c % 256).toNat

/-- Value of a (signed) `char` whose stored byte is `b`. -/
def byteChar (b : Nat) : Int :=
  if b % 256 < 128 then ((b % 256 : Nat) : Int) else ((b % 256 : Nat) : Int) - 256

/-- Read of an unsigned integer from consecutive bytes of memory, lowest address
first, on the little-endian targets the application is built for. -/
def loadLE : List Nat → Nat
  | [] => 0
  | b :: bs => b + 256 * loadLE bs

/-- Source: `AbstractTCPConnection::fourCharsToUInt` (connection_tcp.h, 42-45):
`char ch[4] = { ch1, ch2, ch3, ch4 }; return *reinterpret_cast<uint32*>(ch);`
The four chars are stored as four bytes and read back as one `uint32`. -/
def fourCharsToUInt (ch1 ch2 ch3 ch4 : Int) : Nat :=
  loadLE [charByte ch1, charByte ch2, charByte ch3, charByte ch4] % 2 ^ 32

/-- Four bytes of a `uint32` in memory order (little-endian store). -/
def storeLE32 (n : Nat) : List Nat :=
  [n % 256, n / 256 % 256, n / 65536 % 256, n / 16777216 % 256]

/-- Header word of a packet: its first four bytes read through
`fourCharsToUInt`; bytes that are not there yet read as zero. -/
def headerWord (packet : List Nat) : Nat :=
  fourCharsToUInt (byteChar (packet.getD 0 0)) (byteChar (packet.getD 1 0))
    (byteChar (packet.getD 2 0)) (byteChar (packet.getD 3 0))

/-! ## Frame format -/

/-- Modelled from the spec: number of 4-byte words a payload of `n` bytes
occupies once padded to word alignment (section 8, "padded to word alignment").
The constant is not in the sources. -/
def wordsOf (n : Nat) : Nat := (n + 3) / 4

/-- Modelled from the spec: first length in words that no longer "fits in 7
bits" (section 4.1).  The constant is not in the sources. -/
def compactLimit : Nat := 128

/-- Modelled from the spec: escape marker of the extended header, a header word
with "the top bit set" (sections 4.1 and 6).  The constant is not in the
sources. -/
def extendedMarker : Nat := 2 ^ 31

/-- Modelled from the spec: the bytes that pad a payload of `n` bytes to word
alignment (section 8). -/
def padding (n : Nat) : List Nat := List.replicate (4 * wordsOf n - n) 0

/-- Modelled from the spec: the framing that `tcpSend` (body in
connection_tcp.cpp, not among the sources) applies to a payload.  Section 6:
"either 1 word (4 bytes) compact length-in-words with high bit clear, or an
extended form with high bit set indicating a following 4-byte explicit byte
length; payload follows"; section 4.1: the compact form is used when the
"length in 4-byte words fits in 7 bits"; section 8: the compact frame is "a
compact 4-byte header + 3 ciphered bytes (padded to word alignment)".  The
optional trailing checksum of section 6 belongs to a capability that is not
negotiated here. -/
def encode (payload : List Nat) : List Nat :=
  if wordsOf payload.length < compactLimit then
    storeLE32 (wordsOf payload.length) ++ (payload ++ padding payload.length)
  else
    storeLE32 extendedMarker ++ (storeLE32 payload.length ++ payload)

/-- Modelled from the spec: total length in bytes (header included) that the
header of the frame in `packet` declares, once enough of the header is there
(section 4.1: "once a frame header is fully available, decode the declared
payload length (distinguishing the compact vs. extended header encoding)"). -/
def declaredLength (packet : List Nat) : Option Nat :=
  if packet.length < 4 then none
  else if headerWord packet < extendedMarker then some (4 + 4 * headerWord packet)
  else if packet.length < 8 then none
  else some (8 + headerWord (packet.drop 4))

/-- Modelled from the spec: whether the bytes received so far make up a whole
frame (section 3: "a frame is only handed upward once its full declared length
has been received"). -/
def frameComplete (packet : List Nat) : Bool :=
  match declaredLength packet with
  | none => false
  | some n => decide (n ≤ packet.length)

/-- Modelled from the spec: `AbstractTCPConnection::handleResponse` (declared at
connection_tcp.h, 40; body not among the sources), the decoding of one complete
frame into its payload: the bytes after the header, as many as the header
declares. -/
def handleResponse (packet : List Nat) : Option (List Nat) :=
  match declaredLength packet with
  | none => none
  | some n =>
    if packet.length = n then
      some (packet.drop (if headerWord packet < extendedMarker then 4 else 8))
    else none

/-! ## Stream cipher -/

/-- Modelled from the spec: `CTRState` (declared in mtproto/auth_key.h, not among
the sources), the state of one direction of the stream cipher: the
initialisation vector it was seeded with and the number of keystream bytes
consumed so far (section 2, "StreamCipherState"). -/
structure CTRState where
  ivec : List Nat
  num : Nat
deriving DecidableEq, Repr

/-- Modelled from the spec: what the transport takes from its collaborators and
the spec leaves open.  `keystream key ivec i` is byte `i` of the keystream of
the context seeded with `key` and `ivec`; `derive nonce secret` is the pair of
key/IV halves obtained "deterministically from the nonce plus the pre-shared
secret" (section 4.1); `frameNumber payload` is the "frame number embedded as
part of" a received frame (section 4.1). -/
structure Primitives where
  keystream : List Nat → List Nat → Nat → Nat
  derive : List Nat → List Nat → List Nat × List Nat
  frameNumber : List Nat → Nat

/-- Modelled from the spec: running bytes "through the cipher keystream" of one
direction (section 4.1): every byte is combined with the next keystream byte by
exclusive or, and the state advances by one position per byte.  The cipher
routine is not among the sources. -/
def ctrCrypt (ks : List Nat → List Nat → Nat → Nat) (key : List Nat) (st : CTRState) :
    List Nat → List Nat × CTRState
  | [] => ([], st)
  | b :: bs =>
    let r := ctrCrypt ks key { st with num := st.num + 1 } bs
    ((b ^^^ (ks key st.ivec st.num % 256)) :: r.1, r.2)

/-- Source: the members `_sendKey`, `_sendState`, `_receiveKey`, `_receiveState`
of `AbstractTCPConnection` (connection_tcp.h, 48-51); the spec's
`CipherKeyPair`. -/
structure CipherKeyPair where
  sendKey : List Nat
  sendState : CTRState
  receiveKey : List Nat
  receiveState : CTRState
deriving DecidableEq, Repr

/-- Modelled from the spec: seeding of the two directional contexts on the
connecting side (section 3: "two independent stream-cipher contexts seeded from
the same shared secret but with swapped key/IV halves for each direction").
The seeding code is in connection_tcp.cpp, not among the sources. -/
def seedKeys (derive : List Nat → List Nat → List Nat × List Nat)
    (nonce secret : List Nat) : CipherKeyPair :=
  { sendKey := (derive nonce secret).1
    sendState := { ivec := (derive nonce secret).2, num := 0 }
    receiveKey := (derive nonce secret).2
    receiveState := { ivec := (derive nonce secret).1, num := 0 } }

/-- Modelled from the spec: the contexts of the remote end of the same
connection, seeded from the same nonce and secret: its receive direction is the
connecting side's send direction and conversely (the "matching send/receive
states" of section 8). -/
def peerKeys (derive : List Nat → List Nat → List Nat × List Nat)
    (nonce secret : List Nat) : CipherKeyPair :=
  { sendKey := (seedKeys derive nonce secret).receiveKey
    sendState := (seedKeys derive nonce secret).receiveState
    receiveKey := (seedKeys derive nonce secret).sendKey
    receiveState := (seedKeys derive nonce secret).sendState }

/-! ## Transport state -/

/-- Modelled from the spec: `ConnectionState` of section 3.  The header declares
`TCPConnection::Status { WaitingTcp, UsingTcp, FinishedWork }` (connection_tcp.h,
88-93); the code that assigns it is in connection_tcp.cpp, not among the
sources, so the states and transitions below are the spec's. -/
inductive ConnectionState
  | Disconnected
  | Connecting
  | WaitingHandshakeAck
  | Ready
  | Failed
deriving DecidableEq, Repr

/-- Modelled from the spec: what the error callback `onError` receives
(sections 6 and 7).  `SocketError` is the spec's `TransportError{code,
message}` of a socket-level error. -/
inductive TransportError
  | ConnectError
  | TimeoutError
  | ProtocolError
  | SocketError (code : Int) (message : String)
deriving DecidableEq, Repr

/-- Modelled from the spec: the error `send` returns (section 6,
`send(bytes) -> Result<void, SendError>`). -/
inductive SendError
  | NotReady
deriving DecidableEq, Repr

/-- Modelled from the spec: `Endpoint` of section 3 (`DcOptions::Endpoint` is
not among the sources). -/
structure Endpoint where
  addr : String
  port : Nat
  flags : Nat
deriving DecidableEq, Repr

/-- State of one transport instance.  `packetNum` is the member of that name in
connection_tcp.h; `keys` holds `_sendKey`, `_sendState`, `_receiveKey` and
`_receiveState`, `endpoint` holds `_addr`, `_port` and `_flags`, `timerActive`
stands for `tcpTimeoutTimer` and `socketOpen` for `sock`; `packet` holds the
bytes of the frame being read (`packetRead` is its length); `secret` and
`expected` are the configuration of section 6; `wire`, `frames` and `errors`
record, in order, the bytes written to the socket and the calls of
`onFrameReceived` and `onError`. -/
structure Transport where
  state : ConnectionState
  socketOpen : Bool
  timerActive : Bool
  endpoint : Option Endpoint
  secret : List Nat
  expected : Nat
  keys : CipherKeyPair
  packetNum : Nat
  packet : List Nat
  wire : List Nat
  frames : List (List Nat)
  errors : List TransportError
deriving DecidableEq, Repr

/-- Modelled from the spec: a transport as constructed, in state Disconnected,
with its configuration (pre-shared secret, expected sequence value). -/
def Transport.init (secret : List Nat) (expected : Nat) : Transport :=
  { state := .Disconnected, socketOpen := false, timerActive := false, endpoint := none
    secret := secret, expected := expected
    keys := { sendKey := [], sendState := { ivec := [], num := 0 }
              receiveKey := [], receiveState := { ivec := [], num := 0 } }
    packetNum := 0, packet := [], wire := [], frames := [], errors := [] }

/-- Modelled from the spec: bytes remaining to complete the current frame
(`packetLeft` of connection_tcp.h, 33), zero while the header is incomplete. -/
def Transport.packetLeft (t : Transport) : Nat :=
  match declaredLength t.packet with
  | none => 0
  | some n => n - t.packet.length

/-- Modelled from the spec: the common path of every transport-level error
(section 7: "always surfaced once via the error callback, with state forced to
Failed"; "a partially received frame that then errors discards the whole
frame's accumulated bytes"). -/
def Transport.fail (t : Transport) (e : TransportError) : Transport :=
  { t with state := .Failed, socketOpen := false, timerActive := false
           packet := [], errors := t.errors ++ [e] }

/-! ## Operations and events -/

/-- Modelled from the spec: `TCPConnection::connectTcp` (declared at
connection_tcp.h, 64; body not among the sources), the spec's
`connect(endpoint)`: "opens a TCP connection", Disconnected to Connecting, and
starts the guard timer that "bounds how long the transport may remain in
Connecting/WaitingHandshakeAck". -/
def connectTcp (t : Transport) (endpoint : Endpoint) : Transport :=
  if t.state = .Disconnected then
    { t with state := .Connecting, socketOpen := true, timerActive := true
             endpoint := some endpoint, packetNum := 0, packet := [] }
  else t

/-- Modelled from the spec: `AbstractTCPConnection::tcpSend` (declared at
connection_tcp.h, 47; body not among the sources): "wraps buffer with a length
header, encrypts the framed bytes in place through the send-direction cipher
keystream; writes to the socket" (section 4.1). -/
def tcpSend (prim : Primitives) (t : Transport) (buffer : List Nat) : Transport :=
  { t with
      keys := { t.keys with
        sendState := (ctrCrypt prim.keystream t.keys.sendKey t.keys.sendState (encode buffer)).2 }
      wire := t.wire ++
        (ctrCrypt prim.keystream t.keys.sendKey t.keys.sendState (encode buffer)).1
      packetNum := t.packetNum + 1 }

/-- Modelled from the spec: the sending of the handshake packet, the first
packet of a connection (section 6: a "fixed-size buffer of cryptographically
random bytes used both as connection nonce and as input to deriving the two
directional cipher states"): its bytes go to the socket as they are and seed
the two cipher states together with the pre-shared secret. -/
def sendHandshake (prim : Primitives) (t : Transport) (nonce : List Nat) : Transport :=
  { t with
      keys := seedKeys prim.derive nonce t.secret
      wire := t.wire ++ nonce
      packetNum := t.packetNum + 1 }

/-- Modelled from the spec: `TCPConnection::sendData` (declared at
connection_tcp.h, 62; body not among the sources), the spec's `send(buffer)`:
"valid only when state is Ready (or WaitingHandshakeAck for the handshake frame
itself)", otherwise `SendError` ("attempted send while not Ready"); "no
implicit retry".  The handshake frame is the first packet sent on a connection
(`packetNum` is zero, connection_tcp.h, 31: "sent packet number"). -/
def sendData (prim : Primitives) (t : Transport) (buffer : List Nat) :
    Transport × Option SendError :=
  match t.state with
  | .Ready => (tcpSend prim t buffer, none)
  | .WaitingHandshakeAck =>
    if t.packetNum = 0 then (sendHandshake prim t buffer, none)
    else (t, some .NotReady)
  | _ => (t, some .NotReady)

/-- Modelled from the spec: `TCPConnection::onSocketConnected` (declared at
connection_tcp.h, 77; body not among the sources): "on socket-level connect
success, sends a fixed-size random-nonce handshake packet whose bytes seed the
two directional cipher states deterministically from the nonce plus the
pre-shared secret"; Connecting to WaitingHandshakeAck.  `nonce` is the random
packet drawn for this connection. -/
def onSocketConnected (prim : Primitives) (t : Transport) (nonce : List Nat) : Transport :=
  if t.state = .Connecting then
    (sendData prim { t with state := .WaitingHandshakeAck, packetNum := 0 } nonce).1
  else t

/-- Modelled from the spec: `TCPConnection::socketPacket` (declared at
connection_tcp.h, 84; body not among the sources), called with each complete
frame.  While the handshake ack is awaited, "a frame number embedded as part of
the first received frame after handshake must equal an externally expected
sequence value; a mismatch is treated as a fatal transport error"; a match
completes the handshake (WaitingHandshakeAck to Ready).  In Ready the payload
is delivered "upward via the frame-received callback".  A packet that does not
decode is the "malformed header" of section 7. -/
def socketPacket (prim : Primitives) (t : Transport) (packet : List Nat) : Transport :=
  match t.state with
  | .WaitingHandshakeAck =>
    match handleResponse packet with
    | none => t.fail .ProtocolError
    | some payload =>
      if prim.frameNumber payload = t.expected then
        { t with state := .Ready, timerActive := false }
      else t.fail .ProtocolError
  | .Ready =>
    match handleResponse packet with
    | none => t.fail .ProtocolError
    | some payload => { t with frames := t.frames ++ [payload] }
  | _ => t

/-- Modelled from the spec: one decrypted byte arriving at the reassembly of
section 4.1: it is added to the frame being read; "once a frame header is fully
available" the declared length is known, and when "the buffer is full" the
frame goes to `socketPacket` and header parsing resumes.  Bytes arriving when
no frame can be accepted (after a failure) are dropped. -/
def readByte (prim : Primitives) (t : Transport) (b : Nat) : Transport :=
  if t.state = .WaitingHandshakeAck ∨ t.state = .Ready then
    if frameComplete (t.packet ++ [b]) then
      socketPacket prim { t with packet := [] } (t.packet ++ [b])
    else { t with packet := t.packet ++ [b] }
  else t

/-- Modelled from the spec: `AbstractTCPConnection::socketRead` (declared at
connection_tcp.h, 26; body not among the sources), the socket-readable event:
"consumes all available bytes, runs them through the receive-direction cipher
keystream, and incrementally reassembles frames".  `chunk` is what the socket
has available. -/
def socketRead (prim : Primitives) (t : Transport) (chunk : List Nat) : Transport :=
  if t.state = .WaitingHandshakeAck ∨ t.state = .Ready then
    (ctrCrypt prim.keystream t.keys.receiveKey t.keys.receiveState chunk).1.foldl
      (readByte prim)
      { t with keys := { t.keys with
          receiveState :=
            (ctrCrypt prim.keystream t.keys.receiveKey t.keys.receiveState chunk).2 } }
  else t

/-- Modelled from the spec: `AbstractTCPConnection::handleError` (declared at
connection_tcp.h, 41; body not among the sources): the `TransportError{code,
message}` surfaced for a socket-level error. -/
def handleError (code : Int) (message : String) : TransportError :=
  .SocketError code message

/-- Modelled from the spec: `TCPConnection::socketError` (declared at
connection_tcp.h, 75; body not among the sources): "any socket-level error
transitions to Failed and surfaces TransportError{code, message} exactly once
per error; no automatic reconnect". -/
def socketError (t : Transport) (code : Int) (message : String) : Transport :=
  t.fail (handleError code message)

/-- Modelled from the spec: `TCPConnection::onSocketDisconnected` (declared at
connection_tcp.h, 78; body not among the sources): the remote end closed the
connection; `ConnectError` when "the remote closes before completing the
handshake", and an error like any other once Ready. -/
def onSocketDisconnected (t : Transport) : Transport :=
  match t.state with
  | .Connecting => t.fail .ConnectError
  | .WaitingHandshakeAck => t.fail .ConnectError
  | .Ready => t.fail (.SocketError 0 "remote host closed the connection")
  | _ => t

/-- Modelled from the spec: `TCPConnection::onTcpTimeoutTimer` (declared at
connection_tcp.h, 80; body not among the sources): the guard timer fired; the
transport is "force-failed as TimeoutError" when it is still in Connecting or
WaitingHandshakeAck. -/
def onTcpTimeoutTimer (t : Transport) : Transport :=
  if t.state = .Connecting ∨ t.state = .WaitingHandshakeAck then t.fail .TimeoutError
  else t

/-- Modelled from the spec: `TCPConnection::disconnectFromServer` (declared at
connection_tcp.h, 63; body not among the sources), the spec's `disconnect()`:
"closes the socket, transitions to Disconnected, idempotent"; a Failed
transport stays Failed ("Failed is terminal"). -/
def disconnectFromServer (t : Transport) : Transport :=
  if t.state = .Failed then t
  else { t with state := .Disconnected, socketOpen := false, timerActive := false
                packet := [] }

/-- Everything that can happen to a transport: the caller's operations and the
events of the socket and of the guard timer. -/
inductive Event
  | connect (endpoint : Endpoint)
  | socketConnected (nonce : List Nat)
  | socketReadable (chunk : List Nat)
  | socketError (code : Int) (message : String)
  | socketDisconnected
  | tcpTimeout
  | disconnect
  | send (buffer : List Nat)
deriving DecidableEq, Repr

/-- Dispatch of one event to its handler. -/
def step (prim : Primitives) (t : Transport) : Event → Transport
  | .connect endpoint => connectTcp t endpoint
  | .socketConnected nonce => onSocketConnected prim t nonce
  | .socketReadable chunk => socketRead prim t chunk
  | .socketError code message => socketError t code message
  | .socketDisconnected => onSocketDisconnected t
  | .tcpTimeout => onTcpTimeoutTimer t
  | .disconnect => disconnectFromServer t
  | .send buffer => (sendData prim t buffer).1

/-- Handling of a sequence of events, in order. -/
def run (prim : Primitives) (t : Transport) (events : List Event) : Transport :=
  events.foldl (step prim) t

/-- A concrete choice of the primitives, on which the model can be evaluated. -/
def samplePrimitives : Primitives :=
  { keystream := fun key ivec i => key.sum + 3 * ivec.sum + 7 * i + 1
    derive := fun nonce secret => (nonce.take 2 ++ secret, nonce.drop 2)
    frameNumber := fun payload => payload.headD 0 }

/-- A transport in state Ready: secret `[9, 9]`, expected sequence value 5, keys
seeded from the nonce `[1, 2, 3, 4]`. -/
def sampleReady : Transport :=
  { Transport.init [9, 9] 5 with
      state := .Ready, socketOpen := true
      keys := seedKeys samplePrimitives.derive [1, 2, 3, 4] [9, 9]
      packetNum := 1
      wire := [1, 2, 3, 4] }

end internal

/-! ## Endpoint discovery (`mtproto/special_config_request.h`)

The header declares `MTP::SpecialConfigRequest` with its members and private
member functions; their bodies are in special_config_request.cpp, which is not
among the sources, and are modelled from section 4.2 of the specification. -/

/-- Modelled from the spec: one `{dcId, ip, port}` tuple, the arguments of the
callback `void(DcId dcId, const std::string &ip, int port)`
(special_config_request.h, 14). -/
structure EndpointTuple where
  dcId : Int
  ip : String
  port : Int
deriving DecidableEq, Repr

/-- Modelled from the spec: the kind of a `PendingLookup` (section 3), one per
request of special_config_request.h, 19-20. -/
inductive LookupKind
  | AppRequest
  | DnsRequest
deriving DecidableEq, Repr

/-- State of one discovery object.  `appReply` and `dnsReply` tell whether
`_appReply` and `_dnsReply` (special_config_request.h, 30-31) hold a request in
flight; `issued` records, in order, the network requests made through
`_manager`; `calls` records, in order, the invocations of `_callback`;
`destroyed` is set by the destructor. -/
structure SpecialConfigRequest where
  appReply : Bool
  dnsReply : Bool
  destroyed : Bool
  issued : List LookupKind
  calls : List EndpointTuple
deriving DecidableEq, Repr

namespace SpecialConfigRequest

/-- Modelled from the spec: `performAppRequest` (declared at
special_config_request.h, 19; body not among the sources): issues the request
to the "app metadata" URL. -/
def performAppRequest (r : SpecialConfigRequest) : SpecialConfigRequest :=
  { r with appReply := true, issued := r.issued ++ [.AppRequest] }

/-- Modelled from the spec: `performDnsRequest` (declared at
special_config_request.h, 20; body not among the sources): issues the request
to the DNS-style TXT-record-over-HTTPS URL. -/
def performDnsRequest (r : SpecialConfigRequest) : SpecialConfigRequest :=
  { r with dnsReply := true, issued := r.issued ++ [.DnsRequest] }

/-- Modelled from the spec: the constructor (declared at
special_config_request.h, 14; body not among the sources), the spec's
`start(callback)`: "fires two independent HTTP(S) requests concurrently". -/
def start : SpecialConfigRequest :=
  performDnsRequest (performAppRequest
    { appReply := false, dnsReply := false, destroyed := false, issued := [], calls := [] })

/-- Modelled from the spec: `handleResponse` (declared at
special_config_request.h, 23; body not among the sources): "attempt to decode
as the simple-config format; on success, recover a structured list of {dcId,
ip, port} tuples; invoke callback(dcId, ip, port) for each; cancel the sibling
in-flight request once any result is obtained".  `decryptSimpleConfig`
(declared at special_config_request.h, 24) is the decoding, whose format the
spec leaves open: it is a parameter, `none` for a payload that does not decode. -/
def handleResponse (decryptSimpleConfig : List Nat → Option (List EndpointTuple))
    (r : SpecialConfigRequest) (bytes : List Nat) : SpecialConfigRequest :=
  match decryptSimpleConfig bytes with
  | none => r
  | some tuples =>
    { r with calls := r.calls ++ tuples, appReply := false, dnsReply := false }

/-- Modelled from the spec: `appFinished` (declared at
special_config_request.h, 21; body not among the sources), the completion of
the app request.  `result` is the payload received, `none` when the request
failed.  A completion for a request that is no longer in flight (aborted by the
sibling's result or by the destructor) is dropped: "aborting an in-flight HTTP
operation must guarantee no further callback fires for that handle afterward"
(section 5). -/
def appFinished (decryptSimpleConfig : List Nat → Option (List EndpointTuple))
    (r : SpecialConfigRequest) (result : Option (List Nat)) : SpecialConfigRequest :=
  if r.appReply then
    match result with
    | none => { r with appReply := false }
    | some bytes => handleResponse decryptSimpleConfig { r with appReply := false } bytes
  else r

/-- Modelled from the spec: `dnsFinished` (declared at
special_config_request.h, 22; body not among the sources), the completion of
the DNS request; as `appFinished`. -/
def dnsFinished (decryptSimpleConfig : List Nat → Option (List EndpointTuple))
    (r : SpecialConfigRequest) (result : Option (List Nat)) : SpecialConfigRequest :=
  if r.dnsReply then
    match result with
    | none => { r with dnsReply := false }
    | some bytes => handleResponse decryptSimpleConfig { r with dnsReply := false } bytes
  else r

/-- Modelled from the spec: the destructor (declared at
special_config_request.h, 16; body not among the sources): "destroying the
discovery object while requests are in flight aborts both outstanding network
operations without invoking the callback". -/
def destroy (r : SpecialConfigRequest) : SpecialConfigRequest :=
  { r with destroyed := true, appReply := false, dnsReply := false }

/-- What can happen to a discovery object: the completion of either request,
with the payload received or `none` for a failure, and its destruction. -/
inductive Event
  | appFinished (result : Option (List Nat))
  | dnsFinished (result : Option (List Nat))
  | destroy
deriving DecidableEq, Repr

/-- Dispatch of one event to its handler. -/
def step (decryptSimpleConfig : List Nat → Option (List EndpointTuple))
    (r : SpecialConfigRequest) : Event → SpecialConfigRequest
  | .appFinished result => appFinished decryptSimpleConfig r result
  | .dnsFinished result => dnsFinished decryptSimpleConfig r result
  | .destroy => destroy r

/-- Handling of a sequence of events, in the order the event loop delivers
them. -/
def run (decryptSimpleConfig : List Nat → Option (List EndpointTuple))
    (r : SpecialConfigRequest) (events : List Event) : SpecialConfigRequest :=
  events.foldl (step decryptSimpleConfig) r

/-- Whether a lookup result is a failure: the request failed or its payload
does not decode as simple config. -/
def failed (decryptSimpleConfig : List Nat → Option (List EndpointTuple)) :
    Option (List Nat) → Bool
  | none => true
  | some bytes => (decryptSimpleConfig bytes).isNone

/-- A concrete decoding, on which the model can be evaluated: a payload that
starts with the byte 1 decodes to one tuple per further byte. -/
def sampleDecrypt : List Nat → Option (List EndpointTuple)
  | 1 :: rest => some (rest.map fun b => { dcId := b, ip := "149.154.167.50", port := 443 })
  | _ => none

end SpecialConfigRequest

end MTP

/-! ## Qt strings

Texts are lists of characters.  The crash dump is taken as text: it is UTF-8,
so its bytes and the decoded text determine each other, and replacing an
encoded pattern in the bytes is replacing the pattern in the text. -/

/-- `QChar::isSpace`: the space, the controls `0x09 .. 0x0D`, `0x85`, `0xA0` and
the separators of the Unicode categories Zs, Zl and Zp. -/
def QChar.isSpace (c : Char) : Bool :=
  c.toNat = 0x20 || (0x09 ≤ c.toNat && c.toNat ≤ 0x0D) || c.toNat = 0x85 || c.toNat = 0xA0 ||
    c.toNat = 0x1680 || (0x2000 ≤ c.toNat && c.toNat ≤ 0x200A) || c.toNat = 0x2028 ||
    c.toNat = 0x2029 || c.toNat = 0x202F || c.toNat = 0x205F || c.toNat = 0x3000

/-- `QString::trimmed`: the text without the whitespace at its start and end. -/
def QString.trimmed (s : List Char) : List Char :=
  ((s.dropWhile QChar.isSpace).reverse.dropWhile QChar.isSpace).reverse

/-- `QString::split(sep)`: the parts between the separators, empty parts kept. -/
def QString.split (sep : Char) : List Char → List (List Char)
  | [] => [[]]
  | c :: cs =>
    if c = sep then [] :: QString.split sep cs
    else
      match QString.split sep cs with
      | [] => [[c]]
      | l :: ls => (c :: l) :: ls

/-- `QStringList::join(sep)`. -/
def QStringList.join (sep : Char) : List (List Char) → List Char
  | [] => []
  | [l] => l
  | l :: ls => l ++ sep :: QStringList.join sep ls

/-- `QString::startsWith`. -/
def QString.startsWith (s label : List Char) : Bool := label.isPrefixOf s

/-- `QString::endsWith`. -/
def QString.endsWith (s ending : List Char) : Bool := ending.isSuffixOf s

/-- `QString::mid(position)`: the text from `position` on. -/
def QString.mid (s : List Char) (position : Nat) : List Char := s.drop position

/-- `QString::number` of an integer: its decimal form, with a minus sign when
negative. -/
def QString.number (n : Int) : List Char := (toString n).toList

/-- Whether a character matches `\d` of `QRegularExpression` (without the
Unicode properties option): the digits `0 .. 9`. -/
def isDigit (c : Char) : Bool := 48 ≤ c.toNat && c.toNat ≤ 57

/-- Value of a text of digits read in base 10. -/
def digitsValue (digits : List Char) : Nat :=
  digits.foldl (fun acc c => 10 * acc + (c.toNat - 48)) 0

/-- `QString::toLongLong`: the text, whitespace at its ends ignored, read as an
optionally signed decimal `qlonglong`; 0 when it is not one or does not fit in
64 bits. -/
def QString.toLongLong (s : List Char) : Int :=
  match QString.trimmed s with
  | [] => 0
  | '-' :: digits =>
    if digits ≠ [] ∧ digits.all isDigit ∧ digitsValue digits ≤ 2 ^ 63 then
      -(digitsValue digits : Int)
    else 0
  | '+' :: digits =>
    if digits ≠ [] ∧ digits.all isDigit ∧ digitsValue digits < 2 ^ 63 then
      (digitsValue digits : Int)
    else 0
  | c :: digits =>
    if (c :: digits).all isDigit ∧ digitsValue (c :: digits) < 2 ^ 63 then
      (digitsValue (c :: digits) : Int)
    else 0

/-- Scan of `QByteArray::replace(before, after)`: `skip` counts the characters
of a match just replaced that are still to be passed over. -/
def QByteArray.replaceScan (before after : List Char) : Nat → List Char → List Char
  | _, [] => []
  | skip + 1, _ :: cs => QByteArray.replaceScan before after skip cs
  | 0, c :: cs =>
    if before.isPrefixOf (c :: cs) then
      after ++ QByteArray.replaceScan before after (before.length - 1) cs
    else c :: QByteArray.replaceScan before after 0 cs

/-- `QByteArray::replace(before, after)` for a non-empty `before`: every
occurrence of `before`, found from left to right without overlap, is replaced
by `after`. -/
def QByteArray.replace (s before after : List Char) : List Char :=
  QByteArray.replaceScan before after 0 s

/-- Whitespace for `QByteArray::trimmed`: the space and the controls
`0x09 .. 0x0D` (tab, line feed, vertical tab, form feed, carriage return). -/
def QByteArray.isSpace (c : Char) : Bool :=
  c.toNat = 0x20 || (0x09 ≤ c.toNat && c.toNat ≤ 0x0D)

/-- `QByteArray::trimmed`: the bytes without the whitespace at their start and
end. -/
def QByteArray.trimmed (s : List Char) : List Char :=
  ((s.dropWhile QByteArray.isSpace).reverse.dropWhile QByteArray.isSpace).reverse

/-! ## Crash report window (`core/crash_report_window.cpp`)

The class `LastCrashedWindow` is declared in crash_report_window.h, which is
not among the sources; the enumerations and members below are the ones its
member functions in crash_report_window.cpp use.  The widgets (labels, buttons,
geometry) are not part of the state, except the include-username checkbox. -/

/-- Values of `_sendingState` used in crash_report_window.cpp. -/
inductive SendingState
  | SendingNoReport
  | SendingUpdateCheck
  | SendingNone
  | SendingTooOld
  | SendingTooMany
  | SendingUnofficial
  | SendingProgress
  | SendingUploading
  | SendingFail
  | SendingDone
deriving DecidableEq, Repr

/-- Values of `_updatingState` used in crash_report_window.cpp. -/
inductive UpdatingState
  | UpdatingNone
  | UpdatingCheck
  | UpdatingLatest
  | UpdatingDownload
  | UpdatingFail
  | UpdatingReady
deriving DecidableEq, Repr

/-- What a `QFileInfo` of an existing file gives; `lastModified` in seconds,
`none` for an invalid `QDateTime`. -/
structure FileInfo where
  fileName : List Char
  absoluteFilePath : List Char
  size : Int
  lastModified : Option Int
deriving DecidableEq, Repr

/-- `Sandbox::updatingState()` as the constructor distinguishes it
(crash_report_window.cpp, 308-315). -/
inductive AppUpdatingState
  | UpdatingDownload
  | UpdatingReady
  | Other
deriving DecidableEq, Repr

/-- What the window reads from outside itself: `Sandbox::LastCrashDump()`,
`cAlphaVersion()`, `cBetaVersion()`, `cWorkingDir()`, the two compile-time
switches of the constructor, the file system (`QFileInfo` of a path, `none`
when the file does not exist; `QDir(path).entryInfoList()`),
`Sandbox::updatingState()` and `checkReadyUpdate()`. -/
structure CrashEnv where
  lastCrashDump : List Char
  alphaVersion : Bool
  betaVersion : Nat
  workingDir : List Char
  macCompletedDumps : Bool
  autoupdateDisabled : Bool
  fileInfo : List Char → Option FileInfo
  entryInfoList : List Char → List FileInfo
  updatingState : AppUpdatingState
  checkReadyUpdate : Bool

/-- Source: `constexpr int AppVersion = 1002008;` (core/version.h, 14). -/
def AppVersion : Int := 1002008

/-- The members of `LastCrashedWindow` that its logic reads and writes;
`includeUsername` is whether the checkbox `_includeUsername` is checked,
`continueScheduled` whether `QTimer::singleShot(0, this, SLOT(onContinue()))`
was called, `quitRequested` whether `App::quit()` was called.  `checkReply` and
`sendReply` tell whether the pointers `_checkReply` and `_sendReply` are
non-null; `posted` holds, in order, the bodies of the `report` part of every
multipart given to `_sendManager.post`; `closed` tells whether `close()` was
called. -/
structure LastCrashedWindow where
  reportText : List Char
  reportUsername : List Char
  reportTextNoUsername : List Char
  includeUsername : Bool
  minidumpName : List Char
  minidumpFull : List Char
  sendingState : SendingState
  updatingState : UpdatingState
  continueScheduled : Bool
  quitRequested : Bool
  checkReply : Bool
  sendReply : Bool
  posted : List (List Char)
  closed : Bool
deriving DecidableEq, Repr

namespace LastCrashedWindow

/-- The loop of `excludeReportUsername` (crash_report_window.cpp, 388-394): the
first line that, trimmed, starts with `label` gives the username and is
removed.  Returns the username and the remaining lines, `none` when no line
matches. -/
def excludeUsernameLine (label : List Char) :
    List (List Char) → Option (List Char × List (List Char))
  | [] => none
  | line :: rest =>
    if QString.startsWith (QString.trimmed line) label then
      some (QString.trimmed (QString.mid (QString.trimmed line) label.length), rest)
    else
      match excludeUsernameLine label rest with
      | none => none
      | some (username, kept) => some (username, line :: kept)

/-- Source: `LastCrashedWindow::excludeReportUsername`
(crash_report_window.cpp, 385-396). -/
def excludeReportUsername (w : LastCrashedWindow) : LastCrashedWindow :=
  match excludeUsernameLine "Username:".toList (QString.split '\n' w.reportText) with
  | none =>
    { w with reportTextNoUsername :=
        if w.reportUsername = [] then w.reportText
        else QStringList.join '\n' (QString.split '\n' w.reportText) }
  | some (username, kept) =>
    { w with
        reportUsername := username
        reportTextNoUsername :=
          if username = [] then w.reportText else QStringList.join '\n' kept }

/-- Source: `LastCrashedWindow::getCrashReportRaw` (crash_report_window.cpp,
373-379). -/
def getCrashReportRaw (lastCrashDump : List Char) (w : LastCrashedWindow) : List Char :=
  if w.reportUsername ≠ [] ∧ w.includeUsername ≠ true then
    QByteArray.replace lastCrashDump ("Username: ".toList ++ w.reportUsername)
      "Username: _not_included_".toList
  else lastCrashDump

/-- The loop of `getReportField` (crash_report_window.cpp, 400-414) over the
lines of the report. -/
def getReportFieldLines (name label : List Char) : List (List Char) → List Char
  | [] => []
  | line :: rest =>
    if QString.startsWith (QString.trimmed line) label then
      if name = "version".toList then
        if QString.endsWith
            (QString.trimmed (QString.mid (QString.trimmed line) label.length))
            " beta".toList then
          QString.number (-(QString.toLongLong
            ((QString.trimmed (QString.mid (QString.trimmed line) label.length)).filter
              isDigit)))
        else
          QString.number (QString.toLongLong
            ((QString.trimmed (QString.mid (QString.trimmed line) label.length)).filter
              isDigit))
      else QString.trimmed (QString.mid (QString.trimmed line) label.length)
    else getReportFieldLines name label rest

/-- Source: `LastCrashedWindow::getReportField` (crash_report_window.cpp,
398-416). -/
def getReportField (w : LastCrashedWindow) (name label : List Char) : List Char :=
  getReportFieldLines name label (QString.split '\n' w.reportText)

/-- `qAbs(a.secsTo(b))` for two `QDateTime`s: 0 when either is invalid. -/
def absSecsTo (a b : Option Int) : Int :=
  match a, b with
  | some x, some y => (y - x).natAbs
  | _, _ => 0

/-- State of the search for the dump closest in time to `tdata/working`
(crash_report_window.cpp, 253-267): `maxDump`, `maxDumpFull`,
`maxDumpModified`. -/
structure MaxDump where
  maxDump : List Char
  maxDumpFull : List Char
  maxDumpModified : Option Int
deriving DecidableEq, Repr

/-- One step of the loop at crash_report_window.cpp, 256-267. -/
def maxDumpStep (workingModified : Option Int) (best : MaxDump) (entry : FileInfo) : MaxDump :=
  if QString.endsWith entry.fileName ".dmp".toList then
    if best.maxDump = [] ∨
        absSecsTo workingModified entry.lastModified <
          absSecsTo workingModified best.maxDumpModified then
      { maxDump := entry.fileName, maxDumpFull := entry.absoluteFilePath
        maxDumpModified := entry.lastModified }
    else best
  else best

/-- The directory of the dumps (crash_report_window.cpp, 233-236). -/
def dumpsPath (env : CrashEnv) : List Char :=
  env.workingDir ++ "tdata/dumps".toList ++
    (if env.macCompletedDumps then "/completed".toList else [])

/-- The path tried first for the dump named in the report
(crash_report_window.cpp, 239-244). -/
def possibleDumpPath (env : CrashEnv) (possibleDump : List Char) : List Char :=
  (if QString.startsWith possibleDump ['/'] then possibleDump
    else dumpsPath env ++ '/' :: possibleDump) ++
  (if QString.endsWith
      (if QString.startsWith possibleDump ['/'] then possibleDump
        else dumpsPath env ++ '/' :: possibleDump) ".dmp".toList
    then [] else ".dmp".toList)

/-- The search for the minidump (crash_report_window.cpp, 237-272): first the
file named by the `Minidump:` field of the report, then, when that gave
nothing, the `.dmp` file of the dumps directory closest in time to
`tdata/working`, if closer than 10 seconds. -/
def findMinidump (env : CrashEnv) (w : LastCrashedWindow) : LastCrashedWindow :=
  let named : LastCrashedWindow :=
    if getReportField w "minidump".toList "Minidump:".toList ≠ [] then
      match env.fileInfo
          (possibleDumpPath env (getReportField w "minidump".toList "Minidump:".toList)) with
      | some info =>
        { w with minidumpName := info.fileName, minidumpFull := info.absoluteFilePath }
      | none => w
    else w
  if named.minidumpFull = [] then
    let workingModified : Option Int :=
      match env.fileInfo (env.workingDir ++ "tdata/working".toList) with
      | some info => info.lastModified
      | none => none
    let best := (env.entryInfoList (dumpsPath env)).foldl (maxDumpStep workingModified)
      { maxDump := [], maxDumpFull := [], maxDumpModified := none }
    if best.maxDump ≠ [] ∧ absSecsTo workingModified best.maxDumpModified < 10 then
      { named with minidumpName := best.maxDump, minidumpFull := best.maxDumpFull }
    else named
  else named

/-- The current version as the constructor writes it (crash_report_window.cpp,
281): `cBetaVersion() ? qsl("-%1").arg(cBetaVersion()) :
QString::number(AppVersion)`. -/
def currentVersion (env : CrashEnv) : List Char :=
  if env.betaVersion ≠ 0 then '-' :: QString.number (env.betaVersion : Int)
  else QString.number AppVersion

/-- Source: `LastCrashedWindow::setUpdatingState` (crash_report_window.cpp,
784-815); the call of itself in the `UpdatingReady` case is written out. -/
def setUpdatingState (checkReadyUpdate : Bool) (w : LastCrashedWindow) (state : UpdatingState)
    (force : Bool) : LastCrashedWindow :=
  if w.updatingState ≠ state ∨ force = true then
    match state with
    | .UpdatingLatest =>
      if w.sendingState = .SendingNoReport then
        { w with updatingState := state, continueScheduled := true }
      else { w with updatingState := state, sendingState := .SendingNone }
    | .UpdatingReady =>
      if checkReadyUpdate then { w with updatingState := state, quitRequested := true }
      else { w with updatingState := .UpdatingFail }
    | _ => { w with updatingState := state }
  else w

/-- The members as the initialiser list of the constructor leaves them
(crash_report_window.cpp, 198-224). -/
def initial (env : CrashEnv) : LastCrashedWindow :=
  { reportText := env.lastCrashDump, reportUsername := [], reportTextNoUsername := []
    includeUsername := false, minidumpName := [], minidumpFull := []
    sendingState := if env.lastCrashDump = [] then .SendingNoReport else .SendingUpdateCheck
    updatingState := .UpdatingNone, continueScheduled := false, quitRequested := false
    checkReply := false, sendReply := false, posted := [], closed := false }

/-- Constructor, crash_report_window.cpp, 228-230: "currently accept crash
reports only from testers". -/
def onlyFromTesters (env : CrashEnv) (w : LastCrashedWindow) : LastCrashedWindow :=
  if env.alphaVersion = false ∧ env.betaVersion = 0 then
    { w with sendingState := .SendingNoReport }
  else w

/-- Constructor, crash_report_window.cpp, 231-278: "currently don't accept
crash reports without dumps from google libraries". -/
def onlyWithMinidump (env : CrashEnv) (w : LastCrashedWindow) : LastCrashedWindow :=
  if w.sendingState ≠ .SendingNoReport then
    if (findMinidump env w).minidumpName = [] then
      { findMinidump env w with sendingState := .SendingNoReport }
    else findMinidump env w
  else w

/-- Constructor, crash_report_window.cpp, 279-285: "currently don't accept
crash reports from not current app version". -/
def onlyCurrentVersion (env : CrashEnv) (w : LastCrashedWindow) : LastCrashedWindow :=
  if w.sendingState ≠ .SendingNoReport then
    if getReportField w "version".toList "Version:".toList ≠ currentVersion env then
      { w with sendingState := .SendingNoReport }
    else w
  else w

/-- Constructor, crash_report_window.cpp, 296-324: with the autoupdate, the
updating state is set from `Sandbox::updatingState()`; without it, a report
that can be sent is offered at once. -/
def startUpdating (env : CrashEnv) (w : LastCrashedWindow) : LastCrashedWindow :=
  if env.autoupdateDisabled then
    if w.sendingState ≠ .SendingNoReport then { w with sendingState := .SendingNone }
    else w
  else
    match env.updatingState with
    | .UpdatingDownload => setUpdatingState env.checkReadyUpdate w .UpdatingDownload true
    | .UpdatingReady => setUpdatingState env.checkReadyUpdate w .UpdatingReady true
    | .Other => setUpdatingState env.checkReadyUpdate w .UpdatingCheck true

/-- Source: the constructor `LastCrashedWindow::LastCrashedWindow`
(crash_report_window.cpp, 197-354), as far as the members of the state go: the
steps above in the order of the constructor body. -/
def create (env : CrashEnv) : LastCrashedWindow :=
  startUpdating env
    (onlyCurrentVersion env
      (onlyWithMinidump env (onlyFromTesters env (excludeReportUsername (initial env)))))

/-- Source: `LastCrashedWindow::onSendReport` (crash_report_window.cpp,
428-449): replies in flight are dropped, the query whether the report is
wanted is sent (`_checkReply` is the reply of `_sendManager.get`). -/
def onSendReport (w : LastCrashedWindow) : LastCrashedWindow :=
  { w with checkReply := true, sendReply := false, sendingState := .SendingProgress }

/-- Source: `LastCrashedWindow::onCheckingFinished` (crash_report_window.cpp,
460-537).  `reply` is what `_checkReply->readAll()` gives.  Of the multipart
posted, the body of the `report` part, `getCrashReportRaw()`, is recorded; the
label texts, the log and `CrashReports::Restart()` are outside the state. -/
def onCheckingFinished (env : CrashEnv) (w : LastCrashedWindow) (reply : List Char) :
    LastCrashedWindow :=
  if w.checkReply = false ∨ w.sendReply = true then w
  else if QByteArray.trimmed reply = "Old".toList then
    { w with checkReply := false, sendingState := .SendingTooOld }
  else if QByteArray.trimmed reply = "Unofficial".toList then
    { w with checkReply := false, sendingState := .SendingUnofficial }
  else if QByteArray.trimmed reply ≠ "Report".toList then
    { w with checkReply := false, sendingState := .SendingDone }
  else
    { w with
        checkReply := false
        sendReply := true
        posted := w.posted ++ [getCrashReportRaw env.lastCrashDump w] }

/-- Source: `LastCrashedWindow::onContinue` (crash_report_window.cpp, 869-876):
the application is restarted or launched, which is outside the state, and the
window is closed. -/
def onContinue (w : LastCrashedWindow) : LastCrashedWindow :=
  { w with closed := true }

/-- Source: `LastCrashedWindow::onNetworkSettingsSaved`
(crash_report_window.cpp, 765-781).  The proxy settings and the restart of the
update check (`Sandbox::stopUpdate`, `Sandbox::startUpdateCheck`) are outside
the state of the window. -/
def onNetworkSettingsSaved (env : CrashEnv) (w : LastCrashedWindow) : LastCrashedWindow :=
  if env.autoupdateDisabled = false ∧
      ((w.updatingState = .UpdatingFail ∧
          (w.sendingState = .SendingNoReport ∨ w.sendingState = .SendingUpdateCheck)) ∨
        w.updatingState = .UpdatingCheck) then w
  else if w.sendingState = .SendingFail ∨ w.sendingState = .SendingProgress then onSendReport w
  else w

/-- Source: `LastCrashedWindow::onUpdateSkip` (crash_report_window.cpp,
834-845). -/
def onUpdateSkip (env : CrashEnv) (w : LastCrashedWindow) : LastCrashedWindow :=
  if w.sendingState = .SendingNoReport then onContinue w
  else
    { (if w.updatingState = .UpdatingCheck ∨ w.updatingState = .UpdatingDownload then
        setUpdatingState env.checkReadyUpdate w .UpdatingFail false
      else w) with sendingState := .SendingNone }

/-- Source: `LastCrashedWindow::onUpdateChecking` (crash_report_window.cpp,
847-849). -/
def onUpdateChecking (env : CrashEnv) (w : LastCrashedWindow) : LastCrashedWindow :=
  setUpdatingState env.checkReadyUpdate w .UpdatingCheck false

/-- Source: `LastCrashedWindow::onUpdateLatest` (crash_report_window.cpp,
851-853). -/
def onUpdateLatest (env : CrashEnv) (w : LastCrashedWindow) : LastCrashedWindow :=
  setUpdatingState env.checkReadyUpdate w .UpdatingLatest false

/-- Source: `LastCrashedWindow::onUpdateDownloading` (crash_report_window.cpp,
855-858); `setDownloadProgress` (817-827) changes the text of a label only. -/
def onUpdateDownloading (env : CrashEnv) (w : LastCrashedWindow) (_ready _total : Int) :
    LastCrashedWindow :=
  setUpdatingState env.checkReadyUpdate w .UpdatingDownload false

/-- Source: `LastCrashedWindow::onUpdateReady` (crash_report_window.cpp,
860-862). -/
def onUpdateReady (env : CrashEnv) (w : LastCrashedWindow) : LastCrashedWindow :=
  setUpdatingState env.checkReadyUpdate w .UpdatingReady false

/-- Source: `LastCrashedWindow::onUpdateFailed` (crash_report_window.cpp,
864-866). -/
def onUpdateFailed (env : CrashEnv) (w : LastCrashedWindow) : LastCrashedWindow :=
  setUpdatingState env.checkReadyUpdate w .UpdatingFail false

/-- Source: `LastCrashedWindow::onSendingFinished` (crash_report_window.cpp,
894-907). -/
def onSendingFinished (w : LastCrashedWindow) : LastCrashedWindow :=
  if w.sendReply = true then { w with sendReply := false, sendingState := .SendingDone }
  else w

/-- Source: `LastCrashedWindow::onSendingProgress` (crash_report_window.cpp,
909-919); the numbers go into the text of a label only. -/
def onSendingProgress (w : LastCrashedWindow) (_uploaded _total : Int) : LastCrashedWindow :=
  if w.sendingState ≠ .SendingProgress ∧ w.sendingState ≠ .SendingUploading then w
  else { w with sendingState := .SendingUploading }

/-- The slots of the window that are not a send: the signals of the updater,
the skip button of the update, the saved network settings, and the signals of
the two network replies. -/
inductive Event
  | updateChecking
  | updateLatest
  | updateDownloading (ready total : Int)
  | updateReady
  | updateFailed
  | updateSkip
  | networkSettingsSaved
  | sendingProgress (uploaded total : Int)
  | checkingFinished (reply : List Char)
  | sendingFinished
deriving DecidableEq, Repr

/-- Dispatch of one event to its slot. -/
def step (env : CrashEnv) (w : LastCrashedWindow) : Event → LastCrashedWindow
  | .updateChecking => onUpdateChecking env w
  | .updateLatest => onUpdateLatest env w
  | .updateDownloading ready total => onUpdateDownloading env w ready total
  | .updateReady => onUpdateReady env w
  | .updateFailed => onUpdateFailed env w
  | .updateSkip => onUpdateSkip env w
  | .networkSettingsSaved => onNetworkSettingsSaved env w
  | .sendingProgress uploaded total => onSendingProgress w uploaded total
  | .checkingFinished reply => onCheckingFinished env w reply
  | .sendingFinished => onSendingFinished w

/-- Handling of a sequence of events, in the order the event loop delivers
them. -/
def run (env : CrashEnv) (w : LastCrashedWindow) (events : List Event) : LastCrashedWindow :=
  events.foldl (step env) w

end LastCrashedWindow

/-- An environment on which the constructor can be evaluated: an alpha build
with the given last crash dump, whose working directory holds the one dump file
`tdata/dumps/abc.dmp`. -/
def sampleCrashEnv (dump : List Char) : CrashEnv :=
  { lastCrashDump := dump, alphaVersion := true, betaVersion := 0
    workingDir := "/w/".toList, macCompletedDumps := false, autoupdateDisabled := false
    fileInfo := fun path =>
      if path = "/w/tdata/dumps/abc.dmp".toList then
        some { fileName := "abc.dmp".toList, absoluteFilePath := path, size := 2048
               lastModified := some 100 }
      else none
    entryInfoList := fun _ => []
    updatingState := .Other, checkReadyUpdate := false }

/-- The integer a text of digits spells in base 10, by `Nat.ofDigits` (least
significant digit first); 0 for the empty text. -/
def decimalValue (digits : List Char) : Nat :=
  Nat.ofDigits 10 ((digits.map fun c => c.toNat - 48).reverse)

/-- The number the field `version` stands for, stated without the conversion
functions of Qt: the integer made of the digits of `remainder` only, taken as 0
when it does not fit in a signed 64-bit integer, negated when `remainder` ends
with ` beta`. -/
def versionFieldValue (remainder : List Char) : Int :=
  if decimalValue (remainder.filter isDigit) < 2 ^ 63 then
    if QString.endsWith remainder " beta".toList then
      -(decimalValue (remainder.filter isDigit) : Int)
    else (decimalValue (remainder.filter isDigit) : Int)
  else 0

/-! ## History top bar (`history/history_top_bar_widget.cpp`)

Of the widget, the members the selection and the unread badge work on, and of
its child widgets what these member functions set: the visibility of the
delete and forward buttons, their numbers text, the cursor, the slide
animation and the text of the unread badge.  An `int` is an integer reduced to
32 bits. -/

/-- A value reduced to the range of a 32-bit `int` (two's complement). -/
def wrapInt (x : Int) : Int := (x + 2 ^ 31) % 2 ^ 32 - 2 ^ 31

/-- Source: `HistoryTopBarWidget::SelectedState` (history_top_bar_widget.h,
31-36). -/
structure SelectedState where
  textSelected : Bool
  count : Int
  canDeleteCount : Int
  canForwardCount : Int
deriving DecidableEq, Repr

/-- The cursors `showSelected` sets (`style::cur_default`,
`style::cur_pointer`). -/
inductive Cursor
  | cur_default
  | cur_pointer
deriving DecidableEq, Repr

/-- What the widget reads from outside itself in `updateUnreadBadge`:
`App::histories().unreadMutedCount()`, `App::histories().unreadBadge()`,
`Global::IncludeMuted()` and, when `App::historyLoaded(_historyPeer)` gives a
history, its `unreadCount()` and `mute()`. -/
structure UnreadEnv where
  unreadMutedCount : Int
  unreadBadge : Int
  includeMuted : Bool
  historyShown : Option (Int × Bool)

/-- State of the widget.  `selectedCount`, `canDelete`, `canForward`,
`animationMode` are the members `_selectedCount`, `_canDelete`, `_canForward`,
`_animationMode` (history_top_bar_widget.h, 92-94, 119); `deleteVisible` and
`forwardVisible` tell whether `_delete` and `_forward` are shown;
`numbersText` is the last value given to `setNumbersText` of both buttons;
`numbersFinished` counts the calls of `finishNumbersAnimation`; `cursor` is the
cursor set; `selectedShown` holds the start and end value of the last
`_selectedShown.start`; `geometryUpdates` and `membersShowAreaUpdates` count
the calls of `updateControlsGeometry` and `updateMembersShowArea`;
`unreadBadge` is the text and the active flag of `_unreadBadge`, `none` when
there is no badge. -/
structure HistoryTopBarWidget where
  selectedCount : Int
  canDelete : Bool
  canForward : Bool
  animationMode : Bool
  deleteVisible : Bool
  forwardVisible : Bool
  numbersText : Option Int
  numbersFinished : Nat
  cursor : Cursor
  selectedShown : Option (Bool × Bool)
  geometryUpdates : Nat
  membersShowAreaUpdates : Nat
  unreadBadge : Option (List Char × Bool)
deriving DecidableEq, Repr

namespace HistoryTopBarWidget

/-- Source: `HistoryTopBarWidget::updateControlsGeometry`
(history_top_bar_widget.cpp, 364-418): it moves and resizes the child widgets
and changes neither their visibility nor the selection members. -/
def updateControlsGeometry (w : HistoryTopBarWidget) : HistoryTopBarWidget :=
  { w with geometryUpdates := w.geometryUpdates + 1
           membersShowAreaUpdates := w.membersShowAreaUpdates + 1 }

/-- Source: `HistoryTopBarWidget::updateControlsVisibility`
(history_top_bar_widget.cpp, 434-466), for the delete and forward buttons: in
animation mode all children are hidden, otherwise `_delete` is shown when
`_canDelete` and `_forward` when `_canForward`. -/
def updateControlsVisibility (w : HistoryTopBarWidget) : HistoryTopBarWidget :=
  if w.animationMode then { w with deleteVisible := false, forwardVisible := false }
  else updateControlsGeometry { w with deleteVisible := w.canDelete, forwardVisible := w.canForward }

/-- Source: `HistoryTopBarWidget::showSelected` (history_top_bar_widget.cpp,
499-540). -/
def showSelected (w : HistoryTopBarWidget) (state : SelectedState) : HistoryTopBarWidget :=
  let canDelete : Bool := decide (state.count > 0 ∧ state.count = state.canDeleteCount)
  let canForward : Bool := decide (state.count > 0 ∧ state.count = state.canForwardCount)
  if w.selectedCount = state.count ∧ w.canDelete = canDelete ∧ w.canForward = canForward then w
  else
    let canDelete : Bool := if state.count = 0 then w.canDelete else canDelete
    let canForward : Bool := if state.count = 0 then w.canForward else canForward
    let wasSelected : Bool := decide (w.selectedCount > 0)
    let counted : HistoryTopBarWidget := { w with selectedCount := state.count }
    let numbered : HistoryTopBarWidget :=
      if counted.selectedCount > 0 then
        if wasSelected then { counted with numbersText := some counted.selectedCount }
        else
          { counted with numbersText := some counted.selectedCount
                         numbersFinished := counted.numbersFinished + 1 }
      else counted
    let hasSelected : Bool := decide (numbered.selectedCount > 0)
    let shown : HistoryTopBarWidget :=
      if numbered.canDelete ≠ canDelete ∨ numbered.canForward ≠ canForward then
        updateControlsVisibility { numbered with canDelete := canDelete, canForward := canForward }
      else numbered
    if wasSelected ≠ hasSelected then
      { shown with
          cursor := if hasSelected then .cur_default else .cur_pointer
          membersShowAreaUpdates := shown.membersShowAreaUpdates + 1
          selectedShown := some (!hasSelected, hasSelected) }
    else updateControlsGeometry shown

/-- The text `updateUnreadBadge` gives the badge for a counter
(history_top_bar_widget.cpp, 590-595): empty for zero, the last two digits
after `..` above 999, the number otherwise. -/
def unreadBadgeText (counter : Int) : List Char :=
  if counter ≠ 0 then
    if counter > 999 then
      '.' :: '.' ::
        (if Int.tmod counter 100 < 10 then '0' :: QString.number (Int.tmod counter 100)
          else QString.number (Int.tmod counter 100))
    else QString.number counter
  else []

/-- The local `fullCounter` of `updateUnreadBadge` after the shown chat was
taken out (history_top_bar_widget.cpp, 576-582). -/
def unreadFullCounter (env : UnreadEnv) : Int :=
  match env.historyShown with
  | some (shownUnreadCount, _) =>
    wrapInt
      (wrapInt (env.unreadBadge + (if env.includeMuted then 0 else env.unreadMutedCount)) -
        shownUnreadCount)
  | none => wrapInt (env.unreadBadge + (if env.includeMuted then 0 else env.unreadMutedCount))

/-- The local `mutedCount` of `updateUnreadBadge` after the shown chat was
taken out (history_top_bar_widget.cpp, 575, 583-585). -/
def unreadMutedCounter (env : UnreadEnv) : Int :=
  match env.historyShown with
  | some (shownUnreadCount, true) => wrapInt (env.unreadMutedCount - shownUnreadCount)
  | _ => env.unreadMutedCount

/-- The local `counter` of `updateUnreadBadge`, the number the badge text is
made of (history_top_bar_widget.cpp, 590). -/
def unreadCounter (env : UnreadEnv) : Int :=
  wrapInt (unreadFullCounter env - (if env.includeMuted then 0 else unreadMutedCounter env))

/-- Source: `HistoryTopBarWidget::updateUnreadBadge`
(history_top_bar_widget.cpp, 572-597). -/
def updateUnreadBadge (env : UnreadEnv) (w : HistoryTopBarWidget) : HistoryTopBarWidget :=
  match w.unreadBadge with
  | none => w
  | some _ =>
    { w with
        unreadBadge :=
          some (unreadBadgeText (unreadCounter env),
            decide (unreadMutedCounter env < unreadFullCounter env)) }

end HistoryTopBarWidget

/-! ## Optional values (`base/optional.h`)

`base::optional<Type>` holds a `variant<none_type, Type>`.  The class template
`variant` is declared in base/variant.h, which is not among the sources; it is
taken as what optional.h uses it as, a value of exactly one of its alternative
types, asked about with `is<T>()` and read with `get_unchecked<T>()`.  A
pointer is modelled by what it points to, the null pointer by `none`.  A type
is modelled by a Lean type; where optional.h computes with types
(`optional_wrap_once`), types are given by codes. -/

namespace base

/-- Source: `struct none_type` (optional.h, 15-35) and its one value,
`constexpr none_type none` (optional.h, 37). -/
inductive none_type
  | none
deriving DecidableEq, Repr

/-- The `variant<none_type, Type>` of base/variant.h as optional.h uses it: a value
of exactly one of the two alternative types. -/
inductive variant (T : Type)
  | of_none_type (value : none_type)
  | of_Type (value : T)
deriving DecidableEq, Repr

namespace variant

/-- Member `is<none_type>()` of the variant. -/
def is_none_type {T : Type} : variant T → Bool
  | .of_none_type _ => true
  | .of_Type _ => false

/-- Member `is<Type>()` of the variant. -/
def is_Type {T : Type} : variant T → Bool
  | .of_none_type _ => false
  | .of_Type _ => true

/-- Member `get_unchecked<Type>()` of the variant: the value held, for a variant that
holds a `Type`. -/
def get_unchecked {T : Type} : (v : variant T) → v.is_Type = true → T
  | .of_Type value, _ => value

end variant

/-- Source: `class optional_variant<Types...>` (optional.h, 39-106) with one
type: the member `_impl` (optional.h, 104). -/
structure optional_variant (T : Type) where
  impl : variant T
deriving DecidableEq, Repr

namespace optional_variant

/-- Source: the default constructor, `optional_variant() : _impl(none)`
(optional.h, 42-43). -/
def ctor {T : Type} : optional_variant T := ⟨.of_none_type .none⟩

/-- Source: the converting constructor `optional_variant(T &&value) :
_impl(std::forward<T>(value))` (optional.h, 48-50), given a `Type`. -/
def ctor_value {T : Type} (value : T) : optional_variant T := ⟨.of_Type value⟩

/-- Source: the converting constructor (optional.h, 48-50), given a
`none_type`, as in `return ... : none` (optional.h, 186). -/
def ctor_none {T : Type} (value : none_type) : optional_variant T := ⟨.of_none_type value⟩

/-- Source: `optional_variant::is<none_type>` (optional.h, 90-93). -/
def is_none_type {T : Type} (v : optional_variant T) : Bool := v.impl.is_none_type

/-- Source: `optional_variant::is<Type>` (optional.h, 90-93). -/
def is_Type {T : Type} (v : optional_variant T) : Bool := v.impl.is_Type

/-- Source: `optional_variant::get_unchecked<Type>` (optional.h, 94-101). -/
def get_unchecked {T : Type} (v : optional_variant T) (h : v.is_Type = true) : T :=
  v.impl.get_unchecked h

/-- Source: `optional_variant::has_value` (optional.h, 65-67):
`!is<none_type>()`. -/
def has_value {T : Type} (v : optional_variant T) : Bool := !v.is_none_type

/-- Source: `explicit operator bool` (optional.h, 68-70). -/
def operator_bool {T : Type} (v : optional_variant T) : Bool := v.has_value

end optional_variant

/-- Source: `get_if<T>(optional_variant<Types...> *v)` (optional.h, 108-116):
`(v && v->is<T>()) ? &v->get_unchecked<T>() : nullptr`. -/
def get_if {T : Type} (v : Option (optional_variant T)) : Option T :=
  match v with
  | some pointee =>
    if h : pointee.is_Type = true then some (pointee.get_unchecked h) else none
  | none => none

/-- Source: `class optional<Type> : public optional_variant<Type>` (optional.h,
147-173): it inherits the constructors and adds `operator*` and
`operator->`. -/
abbrev optional (T : Type) : Type := optional_variant T

/-- A failed `Expects(...)` of gsl: the contract is violated and the program
terminates. -/
inductive ContractViolation
  | Expects
deriving DecidableEq, Repr

namespace optional

/-- Source: `optional::operator*` (optional.h, 152-161): `auto result =
get_if<Type>(this); Expects(result != nullptr); return *result;`. -/
def operator_star {T : Type} (v : optional T) : Except ContractViolation T :=
  if h : (get_if (some v)).isSome = true then .ok ((get_if (some v)).get h)
  else .error .Expects

/-- Source: `optional::operator->` (optional.h, 162-171): `auto result =
get_if<Type>(this); Expects(result != nullptr); return result;`. -/
def operator_arrow {T : Type} (v : optional T) : Except ContractViolation (Option T) :=
  if (get_if (some v)).isSome = true then .ok (get_if (some v))
  else .error .Expects

end optional

/-- Codes of the types `optional_wrap_once` (optional.h, 121-132) tells apart:
an `optional<Type>` and every other type, `plain index` being the type of that
index in a family of types. -/
inductive Ty
  | plain (index : Nat)
  | optional (T : Ty)
deriving DecidableEq, Repr

/-- The type a code stands for. -/
def Ty.denote (plain : Nat → Type) : Ty → Type
  | .plain index => plain index
  | .optional T => base.optional (Ty.denote plain T)

/-- Source: `optional_wrap_once<Type>::type` (optional.h, 121-129): the primary
template gives `optional<Type>`, the specialisation for `optional<Type>` gives
`optional<Type>` again. -/
def optional_wrap_once : Ty → Ty
  | .optional T => .optional T
  | .plain index => .optional (.plain index)

/-- What `decltype(method(*value))` can be in `operator|` (optional.h, 182):
`void` or a type. -/
inductive ResultTy
  | void
  | type (T : Ty)
deriving DecidableEq, Repr

/-- What a method of the given result gives. -/
def ResultTy.denote (plain : Nat → Type) : ResultTy → Type
  | .void => Unit
  | .type T => T.denote plain

/-- Source: `optional_chain_result<Type>::type` (optional.h, 134-145):
`optional_wrap_once_t<Type>`, and `bool` for `void`. -/
def optional_chain_result_t (plain : Nat → Type) : ResultTy → Type
  | .void => Bool
  | .type T => (optional_wrap_once T).denote plain

/-- Source: `make_optional` (optional.h, 175-178):
`optional_wrap_once_t<Type> { std::forward<Type>(value) }`, which for an
`optional<Type>` is its copy and for every other type the converting
constructor. -/
def make_optional (plain : Nat → Type) :
    (T : Ty) → T.denote plain → (optional_wrap_once T).denote plain
  | .optional _, value => value
  | .plain _, value => optional_variant.ctor_value value

/-- The conversion of `none` to the result type in `... : none` (optional.h,
186), by the converting constructor. -/
def from_none (plain : Nat → Type) : (T : Ty) → (optional_wrap_once T).denote plain
  | .optional _ => optional_variant.ctor_none .none
  | .plain _ => optional_variant.ctor_none .none

/-- Source: `operator|(const optional<Type> &value, Method method)`
(optional.h, 180-188). -/
def operator_pipe (plain : Nat → Type) {T : Type} :
    (result : ResultTy) → optional T → (T → result.denote plain) →
      Except ContractViolation (optional_chain_result_t plain result)
  | .void, value, method =>
    if value.operator_bool = true then
      (optional.operator_star value).map fun stored => (fun (_ : Unit) => true) (method stored)
    else .ok false
  | .type U, value, method =>
    if value.operator_bool = true then
      (optional.operator_star value).map fun stored => make_optional plain U (method stored)
    else .ok (from_none plain U)

end base

namespace MTP
namespace internal

/-! ## Bytes and header words -/

theorem charByte_byteChar (b : Nat) : charByte (byteChar b) = b % 256 := by
  unfold charByte byteChar
  split <;> omega

theorem headerWord_cons4 (a b c d : Nat) (rest : List Nat) :
    headerWord (a :: b :: c :: d :: rest) =
      (a % 256 + 256 * (b % 256 + 256 * (c % 256 + 256 * (d % 256)))) % 2 ^ 32 := by
  simp [headerWord, fourCharsToUInt, loadLE, charByte_byteChar]

theorem headerWord_storeLE32 (n : Nat) (rest : List Nat) :
    headerWord (storeLE32 n ++ rest) = n % 2 ^ 32 := by
  simp only [storeLE32, List.cons_append, List.nil_append, headerWord_cons4]
  omega

theorem storeLE32_length (n : Nat) : (storeLE32 n).length = 4 := rfl

theorem drop_storeLE32 (n : Nat) (rest : List Nat) : (storeLE32 n ++ rest).drop 4 = rest := by
  simp [storeLE32]

theorem take_storeLE32 (n : Nat) (rest : List Nat) :
    (storeLE32 n ++ rest).take 4 = storeLE32 n := by
  simp [storeLE32]

/-- C6: `fourCharsToUInt` is the little-endian value of its four chars, each
taken as an unsigned byte: a char with its high bit set, whether it reads as the
negative `c` (signed char) or as `c` in `128 .. 255` (unsigned char),
contributes its byte `0 .. 255` and nothing is carried into the higher bytes;
the result is a 32-bit value. -/
theorem fourCharsToUInt_little_endian (c1 c2 c3 c4 : Int)
    (h1 : -128 ≤ c1 ∧ c1 ≤ 255) (h2 : -128 ≤ c2 ∧ c2 ≤ 255)
    (h3 : -128 ≤ c3 ∧ c3 ≤ 255) (h4 : -128 ≤ c4 ∧ c4 ≤ 255) :
    ((fourCharsToUInt c1 c2 c3 c4 : Nat) : Int) =
        (if c1 < 0 then c1 + 256 else c1) + 2 ^ 8 * (if c2 < 0 then c2 + 256 else c2) +
          2 ^ 16 * (if c3 < 0 then c3 + 256 else c3) +
          2 ^ 24 * (if c4 < 0 then c4 + 256 else c4) ∧
      fourCharsToUInt c1 c2 c3 c4 < 2 ^ 32 := by
  unfold fourCharsToUInt loadLE loadLE loadLE loadLE loadLE charByte
  split_ifs <;> omega

/-- Witness of C6 at the chars `0xFF, 0x7F, 0x80, 0x01`: the value is
`0x01807FFF`. -/
theorem fourCharsToUInt_little_endian_witness :
    ((fourCharsToUInt (-1) 127 (-128) 1 : Nat) : Int) =
        255 + 2 ^ 8 * 127 + 2 ^ 16 * 128 + 2 ^ 24 * 1 ∧
      fourCharsToUInt (-1) 127 (-128) 1 < 2 ^ 32 :=
  fourCharsToUInt_little_endian (-1) 127 (-128) 1 (by decide) (by decide) (by decide) (by decide)

/-! ## Framing -/

/-- Running the output of the cipher through a context in the same state gives
the input back: the keystream bytes cancel. -/
theorem ctrCrypt_involutive (ks : List Nat → List Nat → Nat → Nat) (key : List Nat) :
    ∀ (xs : List Nat) (st : CTRState),
      (ctrCrypt ks key st (ctrCrypt ks key st xs).1).1 = xs
  | [], _ => rfl
  | x :: xs, st => by
    simp only [ctrCrypt]
    rw [ctrCrypt_involutive ks key xs]
    simp [Nat.xor_cancel_right]

/-- C3: for every nonce, secret and byte sequence `B`, what the freshly seeded
send direction of one end encrypts, the freshly seeded receive direction of the
other end, derived from the same nonce and secret, decrypts to `B`; this holds
for the connecting side's send direction and for the remote side's. -/
theorem cipher_roundtrip (prim : Primitives) (nonce secret B : List Nat) :
    (ctrCrypt prim.keystream (peerKeys prim.derive nonce secret).receiveKey
        (peerKeys prim.derive nonce secret).receiveState
        (ctrCrypt prim.keystream (seedKeys prim.derive nonce secret).sendKey
          (seedKeys prim.derive nonce secret).sendState B).1).1 = B ∧
    (ctrCrypt prim.keystream (seedKeys prim.derive nonce secret).receiveKey
        (seedKeys prim.derive nonce secret).receiveState
        (ctrCrypt prim.keystream (peerKeys prim.derive nonce secret).sendKey
          (peerKeys prim.derive nonce secret).sendState B).1).1 = B :=
  ⟨ctrCrypt_involutive _ _ _ _, ctrCrypt_involutive _ _ _ _⟩

/-! ## Sending -/

theorem sendData_ready (prim : Primitives) (t : Transport) (P : List Nat)
    (hReady : t.state = .Ready) : sendData prim t P = (tcpSend prim t P, none) := by
  simp [sendData, hReady]

theorem onSocketConnected_other (prim : Primitives) (t : Transport) (nonce : List Nat)
    (h : t.state ≠ .Connecting) : onSocketConnected prim t nonce = t := by
  simp [onSocketConnected, h]

/-- The frame `send` writes in state Ready, ciphered: when the payload length
in words fits in 7 bits the frame starts with the compact one-word header,
whose first byte is that length and whose other three bytes are zero (top bit
clear), followed by the padded payload; otherwise it starts with the header
word whose top bit is set, followed by the 4-byte explicit byte length and the
payload.  The top bit of the header word tells the two forms apart. -/
theorem send_header_selection (prim : Primitives) (t : Transport) (P : List Nat)
    (hReady : t.state = .Ready) :
    (sendData prim t P).1.wire =
        t.wire ++ (ctrCrypt prim.keystream t.keys.sendKey t.keys.sendState (encode P)).1 ∧
      (wordsOf P.length < compactLimit →
        (encode P).take 4 = [wordsOf P.length, 0, 0, 0] ∧
          headerWord (encode P) = wordsOf P.length ∧
          headerWord (encode P) < extendedMarker ∧
          (encode P).drop 4 = P ++ padding P.length) ∧
      (¬ wordsOf P.length < compactLimit →
        (encode P).take 4 = [0, 0, 0, 128] ∧
          headerWord (encode P) = extendedMarker ∧
          ((encode P).drop 4).take 4 = storeLE32 P.length ∧
          (encode P).drop 8 = P) := by
  refine ⟨by rw [sendData_ready prim t P hReady]; rfl, ?_, ?_⟩
  · intro hc
    have hw : wordsOf P.length % 2 ^ 32 = wordsOf P.length := by
      unfold compactLimit at hc; omega
    simp only [encode, hc, if_true, take_storeLE32, drop_storeLE32, headerWord_storeLE32, hw]
    unfold compactLimit at hc
    refine ⟨?_, trivial, ?_, trivial⟩
    · simp only [storeLE32, List.cons.injEq, and_true]
      omega
    · unfold extendedMarker; omega
  · intro hc
    simp only [encode, hc, if_false, take_storeLE32, drop_storeLE32, headerWord_storeLE32]
    refine ⟨by decide, by decide, trivial, ?_⟩
    rw [← List.append_assoc, List.drop_left' (by simp [storeLE32_length])]

/-- The frame of the payload `[1, 2, 3, 4]`, sent by a Ready transport. -/
theorem send_header_selection_witness :
    (encode [1, 2, 3, 4]).take 4 = [wordsOf [1, 2, 3, 4].length, 0, 0, 0] ∧
      headerWord (encode [1, 2, 3, 4]) = wordsOf [1, 2, 3, 4].length ∧
      headerWord (encode [1, 2, 3, 4]) < extendedMarker ∧
      (encode [1, 2, 3, 4]).drop 4 = [1, 2, 3, 4] ++ padding [1, 2, 3, 4].length :=
  (send_header_selection samplePrimitives sampleReady [1, 2, 3, 4] rfl).2.1 (by decide)

/-- C8: `send` in any state other than Ready, the handshake frame itself in
WaitingHandshakeAck apart (the first packet of the connection), fails with
`SendError` and leaves the transport as it was: nothing is written to the
socket, the cipher states are unchanged, and nothing is kept for a later retry
(every later sequence of events runs as if the send had not been attempted). -/
theorem send_not_ready (prim : Primitives) (t : Transport) (buffer : List Nat)
    (h : t.state ≠ .Ready) (hh : ¬ (t.state = .WaitingHandshakeAck ∧ t.packetNum = 0)) :
    (sendData prim t buffer).2 = some .NotReady ∧
      (sendData prim t buffer).1.wire = t.wire ∧
      (sendData prim t buffer).1.keys = t.keys ∧
      (sendData prim t buffer).1 = t ∧
      ∀ events, run prim (sendData prim t buffer).1 events = run prim t events := by
  have hs : sendData prim t buffer = (t, some .NotReady) := by
    unfold sendData
    cases hst : t.state
    · rfl
    · rfl
    · have hp : t.packetNum ≠ 0 := fun h0 => hh ⟨hst, h0⟩
      simp [hp]
    · exact absurd hst h
    · rfl
  rw [hs]
  exact ⟨rfl, rfl, rfl, rfl, fun _ => rfl⟩

/-- Witness of C8: a send on a transport that was never connected. -/
theorem send_not_ready_witness :
    (Transport.init [9, 9] 5).state ≠ .Ready ∧
      (sendData samplePrimitives (Transport.init [9, 9] 5) [1, 2, 3]).2 = some .NotReady ∧
      (sendData samplePrimitives (Transport.init [9, 9] 5) [1, 2, 3]).1.wire = [] :=
  ⟨by decide,
    (send_not_ready samplePrimitives (Transport.init [9, 9] 5) [1, 2, 3] (by decide)
      (by decide)).1,
    (send_not_ready samplePrimitives (Transport.init [9, 9] 5) [1, 2, 3] (by decide)
      (by decide)).2.1⟩

/-! ## Reassembly -/

/-- What an event does to a Failed transport: the state stays Failed, no frame
is delivered, nothing is written, a closed socket stays closed and no
`ProtocolError` is reported. -/
theorem step_failed (prim : Primitives) (t : Transport) (e : Event) (h : t.state = .Failed) :
    (step prim t e).state = .Failed ∧ (step prim t e).frames = t.frames ∧
      (step prim t e).wire = t.wire ∧
      (t.socketOpen = false → (step prim t e).socketOpen = false) ∧
      (step prim t e).errors.count .ProtocolError = t.errors.count .ProtocolError := by
  have hc : t.state ≠ .Connecting := by rw [h]; decide
  cases e <;>
    simp [step, connectTcp, onSocketConnected_other prim t _ hc, socketRead, socketError,
      onSocketDisconnected, onTcpTimeoutTimer, disconnectFromServer, sendData, Transport.fail,
      handleError, h]

theorem run_failed (prim : Primitives) :
    ∀ (events : List Event) (t : Transport), t.state = .Failed →
      (run prim t events).state = .Failed ∧ (run prim t events).frames = t.frames ∧
        (run prim t events).wire = t.wire ∧
        (t.socketOpen = false → (run prim t events).socketOpen = false) ∧
        (run prim t events).errors.count .ProtocolError = t.errors.count .ProtocolError
  | [], _, h => ⟨h, rfl, rfl, fun h => h, rfl⟩
  | e :: es, t, h => by
    obtain ⟨h1, h2, h3, h4, h5⟩ := step_failed prim t e h
    obtain ⟨k1, k2, k3, k4, k5⟩ := run_failed prim es (step prim t e) h1
    show (run prim (step prim t e) es).state = .Failed ∧ _
    exact ⟨k1, k2.trans h2, k3.trans h3, fun h => k4 (h4 h), k5.trans h5⟩

/-- C9: when the first frame received after the handshake carries a frame
number other than the expected sequence value, the transport reports one
`ProtocolError` and becomes Failed, and whatever events follow, the state stays
Failed, no frame is delivered and no further `ProtocolError` is reported. -/
theorem handshake_mismatch_fatal (prim : Primitives) (t : Transport) (packet payload : List Nat)
    (hW : t.state = .WaitingHandshakeAck) (hdec : handleResponse packet = some payload)
    (hbad : prim.frameNumber payload ≠ t.expected) :
    (socketPacket prim t packet).state = .Failed ∧
      (socketPacket prim t packet).errors = t.errors ++ [.ProtocolError] ∧
      (socketPacket prim t packet).frames = t.frames ∧
      ∀ events,
        (run prim (socketPacket prim t packet) events).state = .Failed ∧
          (run prim (socketPacket prim t packet) events).frames = t.frames ∧
          (run prim (socketPacket prim t packet) events).errors.count .ProtocolError =
            t.errors.count .ProtocolError + 1 := by
  have hp : socketPacket prim t packet = t.fail .ProtocolError := by
    simp [socketPacket, hW, hdec, hbad]
  rw [hp]
  refine ⟨rfl, rfl, rfl, fun events => ?_⟩
  obtain ⟨k1, k2, -, -, k5⟩ := run_failed prim events (t.fail .ProtocolError) rfl
  refine ⟨k1, k2, ?_⟩
  rw [k5]
  simp [Transport.fail]

/-- Witness of C9: the transport awaits sequence value 5 and the first frame
carries 6. -/
theorem handshake_mismatch_fatal_witness :
    (socketPacket samplePrimitives { sampleReady with state := .WaitingHandshakeAck }
        (encode [6, 0, 0, 0])).state = .Failed ∧
      (socketPacket samplePrimitives { sampleReady with state := .WaitingHandshakeAck }
        (encode [6, 0, 0, 0])).errors = [.ProtocolError] :=
  ⟨(handshake_mismatch_fatal samplePrimitives { sampleReady with state := .WaitingHandshakeAck }
      (encode [6, 0, 0, 0]) [6, 0, 0, 0] rfl (by decide) (by decide)).1,
    (handshake_mismatch_fatal samplePrimitives { sampleReady with state := .WaitingHandshakeAck }
      (encode [6, 0, 0, 0]) [6, 0, 0, 0] rfl (by decide) (by decide)).2.1⟩

/-- C10: a socket-level error, in whatever state it arrives, moves the
transport to Failed with the socket closed and calls the error callback once,
with that error; and whatever events follow, the state stays Failed and the
socket stays closed, so the transport does not reconnect. -/
theorem socket_error_fails (prim : Primitives) (t : Transport) (code : Int) (message : String) :
    (socketError t code message).state = .Failed ∧
      (socketError t code message).errors = t.errors ++ [.SocketError code message] ∧
      (socketError t code message).socketOpen = false ∧
      ∀ events,
        (run prim (socketError t code message) events).state = .Failed ∧
          (run prim (socketError t code message) events).socketOpen = false ∧
          (run prim (socketError t code message) events).wire = t.wire := by
  refine ⟨rfl, rfl, rfl, fun events => ?_⟩
  obtain ⟨k1, -, k3, k4, -⟩ := run_failed prim events (socketError t code message) rfl
  exact ⟨k1, k4 rfl, k3⟩


/-! ## Guard timer and disconnect -/

/-- An event on a Failed transport reports no error other than a socket error. -/
theorem step_failed_count (prim : Primitives) (t : Transport) (e : Event) (x : TransportError)
    (h : t.state = .Failed) (hx : ∀ code message, x ≠ .SocketError code message) :
    (step prim t e).errors.count x = t.errors.count x := by
  have hc : t.state ≠ .Connecting := by rw [h]; decide
  cases e with
  | socketError code message =>
    have := hx code message
    simp [step, socketError, Transport.fail, handleError, List.count_append, List.count_cons,
      Ne.symm this]
  | connect endpoint => simp [step, connectTcp, h]
  | socketConnected nonce => simp [step, onSocketConnected_other prim t _ hc]
  | socketReadable chunk => simp [step, socketRead, h]
  | socketDisconnected => simp [step, onSocketDisconnected, h]
  | tcpTimeout => simp [step, onTcpTimeoutTimer, h]
  | disconnect => simp [step, disconnectFromServer, h]
  | send buffer => simp [step, sendData, h]

theorem run_failed_count (prim : Primitives) (x : TransportError)
    (hx : ∀ code message, x ≠ .SocketError code message) :
    ∀ (events : List Event) (t : Transport), t.state = .Failed →
      (run prim t events).errors.count x = t.errors.count x
  | [], _, _ => rfl
  | e :: es, t, h => by
    show (run prim (step prim t e) es).errors.count x = _
    rw [run_failed_count prim x hx es (step prim t e) (step_failed prim t e h).1,
      step_failed_count prim t e x h hx]

/-- C11: when the guard timer fires while the state is still Connecting or
WaitingHandshakeAck (the remote has not answered the handshake), the state
becomes Failed and `TimeoutError` is reported, once: whatever events follow,
another firing of the timer included, the state stays Failed and no further
`TimeoutError` is reported. -/
theorem guard_timer_timeout (prim : Primitives) (t : Transport)
    (h : t.state = .Connecting ∨ t.state = .WaitingHandshakeAck) :
    (onTcpTimeoutTimer t).state = .Failed ∧
      (onTcpTimeoutTimer t).errors = t.errors ++ [.TimeoutError] ∧
      ∀ events,
        (run prim (onTcpTimeoutTimer t) events).state = .Failed ∧
          (run prim (onTcpTimeoutTimer t) events).errors.count .TimeoutError =
            t.errors.count .TimeoutError + 1 := by
  have ht : onTcpTimeoutTimer t = t.fail .TimeoutError := by
    simp [onTcpTimeoutTimer, h]
  rw [ht]
  refine ⟨rfl, rfl, fun events => ⟨(run_failed prim events _ rfl).1, ?_⟩⟩
  rw [run_failed_count prim .TimeoutError (fun _ _ => by simp) events _ rfl]
  simp [Transport.fail]

/-- Witness of C11, the scenario: the socket connects, the handshake is sent,
nothing is received, the guard timer fires; a second firing adds nothing. -/
theorem guard_timer_timeout_witness :
    (run samplePrimitives (Transport.init [9, 9] 5)
        [.connect ⟨"127.0.0.1", 443, 0⟩, .socketConnected [1, 2, 3, 4]]).state =
        .WaitingHandshakeAck ∧
      (onTcpTimeoutTimer (run samplePrimitives (Transport.init [9, 9] 5)
        [.connect ⟨"127.0.0.1", 443, 0⟩, .socketConnected [1, 2, 3, 4]])).errors =
        [.TimeoutError] ∧
      (run samplePrimitives
          (onTcpTimeoutTimer (run samplePrimitives (Transport.init [9, 9] 5)
            [.connect ⟨"127.0.0.1", 443, 0⟩, .socketConnected [1, 2, 3, 4]]))
          [.tcpTimeout]).errors.count .TimeoutError = 1 :=
  ⟨by decide,
    (guard_timer_timeout samplePrimitives
      (run samplePrimitives (Transport.init [9, 9] 5)
        [.connect ⟨"127.0.0.1", 443, 0⟩, .socketConnected [1, 2, 3, 4]])
      (Or.inr (by decide))).2.1,
    ((guard_timer_timeout samplePrimitives
      (run samplePrimitives (Transport.init [9, 9] 5)
        [.connect ⟨"127.0.0.1", 443, 0⟩, .socketConnected [1, 2, 3, 4]])
      (Or.inr (by decide))).2.2 [.tcpTimeout]).2⟩

/-- In the model `disconnect()` is idempotent: from every starting state,
calling it twice leaves the transport as calling it once does; from every state
other than Failed that is state Disconnected with the socket closed, and a
Failed transport stays as it is. -/
theorem disconnect_idempotent (t : Transport) :
    disconnectFromServer (disconnectFromServer t) = disconnectFromServer t ∧
      (t.state ≠ .Failed →
        (disconnectFromServer t).state = .Disconnected ∧
          (disconnectFromServer t).socketOpen = false) ∧
      (t.state = .Failed → disconnectFromServer t = t) := by
  refine ⟨?_, ?_, ?_⟩
  · by_cases h : t.state = .Failed
    · simp [disconnectFromServer, h]
    · simp [disconnectFromServer, h]
  · intro h
    simp [disconnectFromServer, h]
  · intro h
    simp [disconnectFromServer, h]

/-- A Ready transport, disconnected twice. -/
theorem disconnect_idempotent_witness :
    sampleReady.state ≠ .Failed ∧
      (disconnectFromServer (disconnectFromServer sampleReady)).state = .Disconnected ∧
      (disconnectFromServer sampleReady).socketOpen = false :=
  ⟨by decide,
    (disconnect_idempotent sampleReady).1 ▸ ((disconnect_idempotent sampleReady).2.1
      (by decide)).1,
    ((disconnect_idempotent sampleReady).2.1 (by decide)).2⟩

end internal

/-! ## Endpoint discovery -/

namespace SpecialConfigRequest

theorem handleResponse_failed (decrypt : List Nat → Option (List EndpointTuple))
    (r : SpecialConfigRequest) (bytes : List Nat) (h : decrypt bytes = none) :
    handleResponse decrypt r bytes = r := by
  simp [handleResponse, h]

/-- No event makes the component issue a request. -/
theorem step_issued (decrypt : List Nat → Option (List EndpointTuple))
    (r : SpecialConfigRequest) (e : Event) : (step decrypt r e).issued = r.issued := by
  cases e with
  | appFinished result =>
    cases result with
    | none => simp only [step, appFinished]; split <;> rfl
    | some bytes =>
      simp only [step, appFinished, handleResponse]
      split
      · cases decrypt bytes <;> rfl
      · rfl
  | dnsFinished result =>
    cases result with
    | none => simp only [step, dnsFinished]; split <;> rfl
    | some bytes =>
      simp only [step, dnsFinished, handleResponse]
      split
      · cases decrypt bytes <;> rfl
      · rfl
  | destroy => rfl

theorem run_issued (decrypt : List Nat → Option (List EndpointTuple)) :
    ∀ (events : List Event) (r : SpecialConfigRequest),
      (run decrypt r events).issued = r.issued
  | [], _ => rfl
  | e :: es, r => by
    show (run decrypt (step decrypt r e) es).issued = _
    rw [run_issued decrypt es, step_issued]

/-- A failed completion of the app request invokes nothing. -/
theorem appFinished_failed (decrypt : List Nat → Option (List EndpointTuple))
    (r : SpecialConfigRequest) (result : Option (List Nat)) (h : failed decrypt result = true) :
    (appFinished decrypt r result).calls = r.calls := by
  cases result with
  | none => simp only [appFinished]; split <;> rfl
  | some bytes =>
    have hd : decrypt bytes = none := by simpa [failed] using h
    simp only [appFinished, handleResponse, hd]
    split <;> rfl

/-- A failed completion of the DNS request invokes nothing. -/
theorem dnsFinished_failed (decrypt : List Nat → Option (List EndpointTuple))
    (r : SpecialConfigRequest) (result : Option (List Nat)) (h : failed decrypt result = true) :
    (dnsFinished decrypt r result).calls = r.calls := by
  cases result with
  | none => simp only [dnsFinished]; split <;> rfl
  | some bytes =>
    have hd : decrypt bytes = none := by simpa [failed] using h
    simp only [dnsFinished, handleResponse, hd]
    split <;> rfl

/-- Once no request is in flight, no event invokes the callback. -/
theorem step_idle (decrypt : List Nat → Option (List EndpointTuple))
    (r : SpecialConfigRequest) (e : Event) (ha : r.appReply = false) (hd : r.dnsReply = false) :
    (step decrypt r e).calls = r.calls ∧ (step decrypt r e).appReply = false ∧
      (step decrypt r e).dnsReply = false := by
  cases e <;> simp [step, appFinished, dnsFinished, destroy, ha, hd]

theorem run_idle (decrypt : List Nat → Option (List EndpointTuple)) :
    ∀ (events : List Event) (r : SpecialConfigRequest), r.appReply = false →
      r.dnsReply = false →
      (run decrypt r events).calls = r.calls ∧ (run decrypt r events).appReply = false ∧
        (run decrypt r events).dnsReply = false
  | [], _, ha, hd => ⟨rfl, ha, hd⟩
  | e :: es, r, ha, hd => by
    obtain ⟨h1, h2, h3⟩ := step_idle decrypt r e ha hd
    obtain ⟨k1, k2, k3⟩ := run_idle decrypt es (step decrypt r e) h2 h3
    show (run decrypt (step decrypt r e) es).calls = _ ∧ _
    exact ⟨k1.trans h1, k2, k3⟩

end SpecialConfigRequest

/-- C13: when one lookup returns a blob that decodes to `tuples` and the other
fails (the request fails or its payload does not decode), the callback is
invoked exactly once per tuple of the blob, in order, whichever of the two
requests succeeds and in whichever order the two completions arrive; the
failing completion alone invokes nothing. -/
theorem discovery_one_succeeds (decrypt : List Nat → Option (List EndpointTuple))
    (blob : List Nat) (tuples : List EndpointTuple) (bad : Option (List Nat))
    (hok : decrypt blob = some tuples)
    (hbad : SpecialConfigRequest.failed decrypt bad = true) :
    (SpecialConfigRequest.run decrypt SpecialConfigRequest.start
        [.appFinished (some blob), .dnsFinished bad]).calls = tuples ∧
      (SpecialConfigRequest.run decrypt SpecialConfigRequest.start
        [.dnsFinished bad, .appFinished (some blob)]).calls = tuples ∧
      (SpecialConfigRequest.run decrypt SpecialConfigRequest.start
        [.dnsFinished (some blob), .appFinished bad]).calls = tuples ∧
      (SpecialConfigRequest.run decrypt SpecialConfigRequest.start
        [.appFinished bad, .dnsFinished (some blob)]).calls = tuples ∧
      (SpecialConfigRequest.run decrypt SpecialConfigRequest.start
        [.appFinished bad]).calls = [] ∧
      (SpecialConfigRequest.run decrypt SpecialConfigRequest.start
        [.dnsFinished bad]).calls = [] := by
  cases bad with
  | none =>
    simp [SpecialConfigRequest.run, SpecialConfigRequest.step, SpecialConfigRequest.start,
      SpecialConfigRequest.performAppRequest, SpecialConfigRequest.performDnsRequest,
      SpecialConfigRequest.appFinished, SpecialConfigRequest.dnsFinished,
      SpecialConfigRequest.handleResponse, hok]
  | some bytes =>
    have hd : decrypt bytes = none := by simpa [SpecialConfigRequest.failed] using hbad
    simp [SpecialConfigRequest.run, SpecialConfigRequest.step, SpecialConfigRequest.start,
      SpecialConfigRequest.performAppRequest, SpecialConfigRequest.performDnsRequest,
      SpecialConfigRequest.appFinished, SpecialConfigRequest.dnsFinished,
      SpecialConfigRequest.handleResponse, hok, hd]

/-- Witness of C13: the app request returns a blob of two tuples, the DNS
request fails. -/
theorem discovery_one_succeeds_witness :
    (SpecialConfigRequest.run SpecialConfigRequest.sampleDecrypt SpecialConfigRequest.start
        [.dnsFinished none, .appFinished (some [1, 2, 4])]).calls =
      [{ dcId := 2, ip := "149.154.167.50", port := 443 },
        { dcId := 4, ip := "149.154.167.50", port := 443 }] :=
  (discovery_one_succeeds SpecialConfigRequest.sampleDecrypt [1, 2, 4] _ none rfl rfl).2.1

/-- C14: when every completion is a failure (the request fails or its payload
does not decode), the callback is never invoked, and no event makes the
component issue a request: the two requests of the start are the only ones. -/
theorem discovery_all_fail (decrypt : List Nat → Option (List EndpointTuple))
    (first second : Option (List Nat))
    (h1 : SpecialConfigRequest.failed decrypt first = true)
    (h2 : SpecialConfigRequest.failed decrypt second = true) :
    (SpecialConfigRequest.run decrypt SpecialConfigRequest.start
        [.appFinished first, .dnsFinished second]).calls = [] ∧
      (SpecialConfigRequest.run decrypt SpecialConfigRequest.start
        [.dnsFinished second, .appFinished first]).calls = [] ∧
      ∀ events,
        (SpecialConfigRequest.run decrypt SpecialConfigRequest.start events).issued =
          [.AppRequest, .DnsRequest] := by
  refine ⟨?_, ?_, fun events => SpecialConfigRequest.run_issued decrypt events _⟩
  · show (SpecialConfigRequest.dnsFinished decrypt
      (SpecialConfigRequest.appFinished decrypt SpecialConfigRequest.start first) second).calls
      = []
    rw [SpecialConfigRequest.dnsFinished_failed decrypt _ _ h2,
      SpecialConfigRequest.appFinished_failed decrypt _ _ h1]
    rfl
  · show (SpecialConfigRequest.appFinished decrypt
      (SpecialConfigRequest.dnsFinished decrypt SpecialConfigRequest.start second) first).calls
      = []
    rw [SpecialConfigRequest.appFinished_failed decrypt _ _ h1,
      SpecialConfigRequest.dnsFinished_failed decrypt _ _ h2]
    rfl

/-- Witness of C14: the app request fails and the DNS request returns a payload
that does not decode. -/
theorem discovery_all_fail_witness :
    (SpecialConfigRequest.run SpecialConfigRequest.sampleDecrypt SpecialConfigRequest.start
        [.appFinished none, .dnsFinished (some [7, 7])]).calls = [] :=
  (discovery_all_fail SpecialConfigRequest.sampleDecrypt none (some [7, 7]) rfl rfl).1

/-- C15: destroying the discovery object aborts both outstanding requests, and
whatever arrives afterwards, a delayed response that decodes included, the
callback is not invoked. -/
theorem discovery_destroyed (decrypt : List Nat → Option (List EndpointTuple))
    (r : SpecialConfigRequest) :
    (SpecialConfigRequest.destroy r).appReply = false ∧
      (SpecialConfigRequest.destroy r).dnsReply = false ∧
      (SpecialConfigRequest.destroy r).calls = r.calls ∧
      ∀ events,
        (SpecialConfigRequest.run decrypt (SpecialConfigRequest.destroy r) events).calls =
          r.calls :=
  ⟨rfl, rfl, rfl, fun events =>
    (SpecialConfigRequest.run_idle decrypt events (SpecialConfigRequest.destroy r) rfl rfl).1⟩

/-- C16: when both lookups return payloads that decode, only the tuples of the
completion processed first reach the callback: it cancels its sibling, whose
completion is then dropped. -/
theorem discovery_first_wins (decrypt : List Nat → Option (List EndpointTuple))
    (appBlob dnsBlob : List Nat) (appTuples dnsTuples : List EndpointTuple)
    (ha : decrypt appBlob = some appTuples) (hd : decrypt dnsBlob = some dnsTuples) :
    (SpecialConfigRequest.run decrypt SpecialConfigRequest.start
        [.appFinished (some appBlob), .dnsFinished (some dnsBlob)]).calls = appTuples ∧
      (SpecialConfigRequest.run decrypt SpecialConfigRequest.start
        [.dnsFinished (some dnsBlob), .appFinished (some appBlob)]).calls = dnsTuples ∧
      (SpecialConfigRequest.run decrypt SpecialConfigRequest.start
        [.appFinished (some appBlob)]).dnsReply = false ∧
      (SpecialConfigRequest.run decrypt SpecialConfigRequest.start
        [.dnsFinished (some dnsBlob)]).appReply = false ∧
      ∀ events,
        (SpecialConfigRequest.run decrypt
          (SpecialConfigRequest.run decrypt SpecialConfigRequest.start
            [.appFinished (some appBlob)]) events).calls = appTuples ∧
        (SpecialConfigRequest.run decrypt
          (SpecialConfigRequest.run decrypt SpecialConfigRequest.start
            [.dnsFinished (some dnsBlob)]) events).calls = dnsTuples := by
  have e1 : SpecialConfigRequest.run decrypt SpecialConfigRequest.start
      [.appFinished (some appBlob)] =
      { appReply := false, dnsReply := false, destroyed := false,
        issued := [.AppRequest, .DnsRequest], calls := appTuples } := by
    simp [SpecialConfigRequest.run, SpecialConfigRequest.step, SpecialConfigRequest.start,
      SpecialConfigRequest.performAppRequest, SpecialConfigRequest.performDnsRequest,
      SpecialConfigRequest.appFinished, SpecialConfigRequest.handleResponse, ha]
  have e2 : SpecialConfigRequest.run decrypt SpecialConfigRequest.start
      [.dnsFinished (some dnsBlob)] =
      { appReply := false, dnsReply := false, destroyed := false,
        issued := [.AppRequest, .DnsRequest], calls := dnsTuples } := by
    simp [SpecialConfigRequest.run, SpecialConfigRequest.step, SpecialConfigRequest.start,
      SpecialConfigRequest.performAppRequest, SpecialConfigRequest.performDnsRequest,
      SpecialConfigRequest.dnsFinished, SpecialConfigRequest.handleResponse, hd]
  refine ⟨?_, ?_, by rw [e1], by rw [e2], fun events => ⟨?_, ?_⟩⟩
  · simp [SpecialConfigRequest.run, SpecialConfigRequest.step, SpecialConfigRequest.start,
      SpecialConfigRequest.performAppRequest, SpecialConfigRequest.performDnsRequest,
      SpecialConfigRequest.appFinished, SpecialConfigRequest.dnsFinished,
      SpecialConfigRequest.handleResponse, ha]
  · simp [SpecialConfigRequest.run, SpecialConfigRequest.step, SpecialConfigRequest.start,
      SpecialConfigRequest.performAppRequest, SpecialConfigRequest.performDnsRequest,
      SpecialConfigRequest.appFinished, SpecialConfigRequest.dnsFinished,
      SpecialConfigRequest.handleResponse, hd]
  · rw [e1]
    exact (SpecialConfigRequest.run_idle decrypt events _ rfl rfl).1
  · rw [e2]
    exact (SpecialConfigRequest.run_idle decrypt events _ rfl rfl).1

/-- Witness of C16: both requests return blobs that decode; the DNS response is
processed first and only its tuple is delivered. -/
theorem discovery_first_wins_witness :
    (SpecialConfigRequest.run SpecialConfigRequest.sampleDecrypt SpecialConfigRequest.start
        [.dnsFinished (some [1, 5]), .appFinished (some [1, 2, 4])]).calls =
      [{ dcId := 5, ip := "149.154.167.50", port := 443 }] :=
  (discovery_first_wins SpecialConfigRequest.sampleDecrypt [1, 2, 4] [1, 5] _ _ rfl rfl).2.1

end MTP

/-! ## Crash report window -/

namespace LastCrashedWindow

theorem excludeReportUsername_reportText (w : LastCrashedWindow) :
    (excludeReportUsername w).reportText = w.reportText ∧
      (excludeReportUsername w).sendingState = w.sendingState ∧
      (excludeReportUsername w).minidumpName = w.minidumpName := by
  unfold excludeReportUsername
  split <;> exact ⟨rfl, rfl, rfl⟩

theorem findMinidump_reportText (env : CrashEnv) (w : LastCrashedWindow) :
    (findMinidump env w).reportText = w.reportText ∧
      (findMinidump env w).sendingState = w.sendingState := by
  unfold findMinidump
  simp only
  split_ifs <;> (try split) <;> exact ⟨rfl, rfl⟩

/-- `setUpdatingState` keeps the report, the minidump name, and whether the
sending state is `SendingNoReport`. -/
theorem setUpdatingState_noReport (ready : Bool) (w : LastCrashedWindow)
    (state : UpdatingState) (force : Bool) :
    (setUpdatingState ready w state force).reportText = w.reportText ∧
      (setUpdatingState ready w state force).minidumpName = w.minidumpName ∧
      ((setUpdatingState ready w state force).sendingState = .SendingNoReport ↔
        w.sendingState = .SendingNoReport) := by
  unfold setUpdatingState
  split
  · cases state <;> simp only [] <;> (try split) <;> simp_all
  · exact ⟨rfl, rfl, Iff.rfl⟩

theorem getReportField_congr (w v : LastCrashedWindow) (name label : List Char)
    (h : w.reportText = v.reportText) : getReportField w name label = getReportField v name label := by
  unfold getReportField
  rw [h]

theorem onlyFromTesters_spec (env : CrashEnv) (w : LastCrashedWindow) :
    (onlyFromTesters env w).reportText = w.reportText ∧
      (onlyFromTesters env w).minidumpName = w.minidumpName ∧
      ((onlyFromTesters env w).sendingState = .SendingNoReport ↔
        (w.sendingState = .SendingNoReport ∨
          (env.alphaVersion = false ∧ env.betaVersion = 0))) := by
  unfold onlyFromTesters
  split
  · rename_i h
    exact ⟨rfl, rfl, by simp [h]⟩
  · rename_i h
    exact ⟨rfl, rfl, by simp [h]⟩

/-- After the minidump step the sending state is `SendingNoReport` exactly when
it was before or no minidump name was found; when it was before, the search is
not made and the name stays as it was. -/
theorem onlyWithMinidump_spec (env : CrashEnv) (w : LastCrashedWindow) :
    (onlyWithMinidump env w).reportText = w.reportText ∧
      (w.sendingState = .SendingNoReport →
        (onlyWithMinidump env w).minidumpName = w.minidumpName) ∧
      (w.minidumpName = [] →
        ((onlyWithMinidump env w).sendingState = .SendingNoReport ↔
          (w.sendingState = .SendingNoReport ∨ (onlyWithMinidump env w).minidumpName = []))) := by
  unfold onlyWithMinidump
  by_cases h : w.sendingState = .SendingNoReport
  · simp [h]
  · by_cases hm : (findMinidump env w).minidumpName = []
    · simp [h, hm, (findMinidump_reportText env w).1]
    · simp [h, hm, (findMinidump_reportText env w).1, (findMinidump_reportText env w).2]

theorem onlyCurrentVersion_spec (env : CrashEnv) (w : LastCrashedWindow) :
    (onlyCurrentVersion env w).reportText = w.reportText ∧
      (onlyCurrentVersion env w).minidumpName = w.minidumpName ∧
      ((onlyCurrentVersion env w).sendingState = .SendingNoReport ↔
        (w.sendingState = .SendingNoReport ∨
          getReportField w "version".toList "Version:".toList ≠ currentVersion env)) := by
  unfold onlyCurrentVersion
  by_cases h : w.sendingState = .SendingNoReport
  · rw [if_neg (not_not.mpr h)]
    exact ⟨rfl, rfl, iff_of_true h (Or.inl h)⟩
  · rw [if_pos h]
    by_cases hv : getReportField w "version".toList "Version:".toList = currentVersion env
    · rw [if_neg (not_not.mpr hv)]
      exact ⟨rfl, rfl, iff_of_false h (fun h' => h'.elim h (fun k => k hv))⟩
    · rw [if_pos hv]
      exact ⟨rfl, rfl, iff_of_true rfl (Or.inr hv)⟩

theorem startUpdating_spec (env : CrashEnv) (w : LastCrashedWindow) :
    (startUpdating env w).reportText = w.reportText ∧
      (startUpdating env w).minidumpName = w.minidumpName ∧
      ((startUpdating env w).sendingState = .SendingNoReport ↔
        w.sendingState = .SendingNoReport) := by
  unfold startUpdating
  split
  · by_cases h : w.sendingState = .SendingNoReport
    · simp [h]
    · simp [h]
  · split <;> exact setUpdatingState_noReport _ _ _ _

theorem excludeReportUsername_minidump (w : LastCrashedWindow) :
    (excludeReportUsername w).minidumpName = w.minidumpName ∧
      (excludeReportUsername w).minidumpFull = w.minidumpFull := by
  unfold excludeReportUsername
  split <;> exact ⟨rfl, rfl⟩

theorem onlyFromTesters_minidump (env : CrashEnv) (w : LastCrashedWindow) :
    (onlyFromTesters env w).minidumpName = w.minidumpName ∧
      (onlyFromTesters env w).minidumpFull = w.minidumpFull := by
  unfold onlyFromTesters
  split <;> exact ⟨rfl, rfl⟩

/-- The minidump the search finds depends on the window through the report
text and the minidump members only. -/
theorem findMinidump_congr (env : CrashEnv) (w v : LastCrashedWindow)
    (h1 : w.reportText = v.reportText) (h2 : w.minidumpName = v.minidumpName)
    (h3 : w.minidumpFull = v.minidumpFull) :
    (findMinidump env w).minidumpName = (findMinidump env v).minidumpName := by
  unfold findMinidump
  rw [getReportField_congr w v _ _ h1]
  simp only
  split_ifs <;> (try split) <;> simp_all

/-- After the minidump step the sending state is `SendingNoReport` exactly when
it was before or the search finds no minidump. -/
theorem onlyWithMinidump_search (env : CrashEnv) (w : LastCrashedWindow) :
    ((onlyWithMinidump env w).sendingState = .SendingNoReport ↔
        (w.sendingState = .SendingNoReport ∨ (findMinidump env w).minidumpName = [])) ∧
      (w.sendingState ≠ .SendingNoReport →
        (onlyWithMinidump env w).minidumpName = (findMinidump env w).minidumpName) := by
  unfold onlyWithMinidump
  by_cases h : w.sendingState = .SendingNoReport
  · rw [if_neg (not_not.mpr h)]
    exact ⟨iff_of_true h (Or.inl h), fun k => absurd h k⟩
  · rw [if_pos h]
    by_cases hm : (findMinidump env w).minidumpName = []
    · rw [if_pos hm]
      exact ⟨iff_of_true rfl (Or.inr hm), fun _ => rfl⟩
    · rw [if_neg hm]
      refine ⟨iff_of_false ?_ (fun k => k.elim h hm), fun _ => rfl⟩
      rw [(findMinidump_reportText env w).2]
      exact h

end LastCrashedWindow

/-- C18: at the end of the constructor the sending state is `SendingNoReport`
if and only if the last crash dump is empty, or the build is neither alpha nor
beta, or the search finds no minidump file for the report (`_minidumpName`
stays empty), or the version field of the report differs from the current
version (the beta version after `-` for a beta build, `AppVersion` otherwise);
the search and the version field are those of the environment and the crash
dump the window is made for, and a report that can be sent has the minidump
found as its `_minidumpName`. -/
theorem constructor_sending_state (env : CrashEnv) :
    ((LastCrashedWindow.create env).sendingState = .SendingNoReport ↔
        (env.lastCrashDump = [] ∨ (env.alphaVersion = false ∧ env.betaVersion = 0) ∨
          (LastCrashedWindow.findMinidump env (LastCrashedWindow.initial env)).minidumpName =
            [] ∨
          LastCrashedWindow.getReportField (LastCrashedWindow.initial env) "version".toList
              "Version:".toList ≠ LastCrashedWindow.currentVersion env)) ∧
      ((LastCrashedWindow.create env).sendingState ≠ .SendingNoReport →
        (LastCrashedWindow.create env).minidumpName =
          (LastCrashedWindow.findMinidump env (LastCrashedWindow.initial env)).minidumpName) ∧
      (LastCrashedWindow.create env).reportText = env.lastCrashDump := by
  obtain ⟨a1, a2, -⟩ := LastCrashedWindow.excludeReportUsername_reportText
    (LastCrashedWindow.initial env)
  obtain ⟨a4, a5⟩ := LastCrashedWindow.excludeReportUsername_minidump
    (LastCrashedWindow.initial env)
  obtain ⟨b1, -, b3⟩ := LastCrashedWindow.onlyFromTesters_spec env
    (LastCrashedWindow.excludeReportUsername (LastCrashedWindow.initial env))
  obtain ⟨b4, b5⟩ := LastCrashedWindow.onlyFromTesters_minidump env
    (LastCrashedWindow.excludeReportUsername (LastCrashedWindow.initial env))
  obtain ⟨c1, -, -⟩ := LastCrashedWindow.onlyWithMinidump_spec env
    (LastCrashedWindow.onlyFromTesters env
      (LastCrashedWindow.excludeReportUsername (LastCrashedWindow.initial env)))
  obtain ⟨c3, c4⟩ := LastCrashedWindow.onlyWithMinidump_search env
    (LastCrashedWindow.onlyFromTesters env
      (LastCrashedWindow.excludeReportUsername (LastCrashedWindow.initial env)))
  obtain ⟨d1, d2, d3⟩ := LastCrashedWindow.onlyCurrentVersion_spec env
    (LastCrashedWindow.onlyWithMinidump env (LastCrashedWindow.onlyFromTesters env
      (LastCrashedWindow.excludeReportUsername (LastCrashedWindow.initial env))))
  obtain ⟨e1, e2, e3⟩ := LastCrashedWindow.startUpdating_spec env
    (LastCrashedWindow.onlyCurrentVersion env
      (LastCrashedWindow.onlyWithMinidump env (LastCrashedWindow.onlyFromTesters env
        (LastCrashedWindow.excludeReportUsername (LastCrashedWindow.initial env)))))
  have htext : (LastCrashedWindow.onlyWithMinidump env (LastCrashedWindow.onlyFromTesters env
      (LastCrashedWindow.excludeReportUsername (LastCrashedWindow.initial env)))).reportText =
      (LastCrashedWindow.initial env).reportText := c1.trans (b1.trans a1)
  have hv := LastCrashedWindow.getReportField_congr _ _ "version".toList "Version:".toList htext
  have hf := LastCrashedWindow.findMinidump_congr env
    (LastCrashedWindow.onlyFromTesters env
      (LastCrashedWindow.excludeReportUsername (LastCrashedWindow.initial env)))
    (LastCrashedWindow.initial env) (b1.trans a1) (b4.trans a4) (b5.trans a5)
  have hi : (LastCrashedWindow.initial env).sendingState = .SendingNoReport ↔
      env.lastCrashDump = [] := by
    unfold LastCrashedWindow.initial
    by_cases h : env.lastCrashDump = [] <;> simp [h]
  have hcreate : LastCrashedWindow.create env =
      LastCrashedWindow.startUpdating env
        (LastCrashedWindow.onlyCurrentVersion env
          (LastCrashedWindow.onlyWithMinidump env (LastCrashedWindow.onlyFromTesters env
            (LastCrashedWindow.excludeReportUsername (LastCrashedWindow.initial env))))) := rfl
  have hstate : (LastCrashedWindow.create env).sendingState = .SendingNoReport ↔
      (env.lastCrashDump = [] ∨ (env.alphaVersion = false ∧ env.betaVersion = 0) ∨
        (LastCrashedWindow.findMinidump env (LastCrashedWindow.initial env)).minidumpName =
          [] ∨
        LastCrashedWindow.getReportField (LastCrashedWindow.initial env) "version".toList
            "Version:".toList ≠ LastCrashedWindow.currentVersion env) := by
    rw [hcreate, e3, d3, hv, c3, hf, b3, a2, hi]
    generalize (LastCrashedWindow.findMinidump env
      (LastCrashedWindow.initial env)).minidumpName = found
    generalize LastCrashedWindow.getReportField (LastCrashedWindow.initial env)
      "version".toList "Version:".toList = v
    generalize LastCrashedWindow.currentVersion env = current
    constructor
    · rintro (((h | h) | h) | h)
      · exact Or.inl h
      · exact Or.inr (Or.inl h)
      · exact Or.inr (Or.inr (Or.inl h))
      · exact Or.inr (Or.inr (Or.inr h))
    · rintro (h | h | h | h)
      · exact Or.inl (Or.inl (Or.inl h))
      · exact Or.inl (Or.inl (Or.inr h))
      · exact Or.inl (Or.inr h)
      · exact Or.inr h
  refine ⟨hstate, ?_, ?_⟩
  · intro hs
    have h4 : ¬ (LastCrashedWindow.onlyCurrentVersion env
        (LastCrashedWindow.onlyWithMinidump env (LastCrashedWindow.onlyFromTesters env
          (LastCrashedWindow.excludeReportUsername
            (LastCrashedWindow.initial env))))).sendingState = .SendingNoReport :=
      fun k => hs (by rw [hcreate]; exact e3.mpr k)
    have h3 : ¬ (LastCrashedWindow.onlyWithMinidump env (LastCrashedWindow.onlyFromTesters env
        (LastCrashedWindow.excludeReportUsername
          (LastCrashedWindow.initial env)))).sendingState = .SendingNoReport :=
      fun k => h4 (d3.mpr (Or.inl k))
    have h2 : ¬ (LastCrashedWindow.onlyFromTesters env
        (LastCrashedWindow.excludeReportUsername
          (LastCrashedWindow.initial env))).sendingState = .SendingNoReport :=
      fun k => h3 (c3.mpr (Or.inl k))
    rw [hcreate, e2, d2, c4 h2, hf]
  · rw [hcreate, e1, d1, htext]
    rfl

/-- Witness of C18: for an alpha build, a crash dump of the current version
whose minidump is on disk gives a report that can be sent. -/
theorem constructor_sending_state_witness :
    (LastCrashedWindow.create
        (sampleCrashEnv "Version: 1002008\nMinidump: abc\n".toList)).sendingState ≠
      .SendingNoReport :=
  fun h =>
    absurd
      ((constructor_sending_state
        (sampleCrashEnv "Version: 1002008\nMinidump: abc\n".toList)).1.mp h)
      (by decide)

/-! ## The unread badge of the history top bar -/

theorem wrapInt_of_range (x : Int) (h1 : -2 ^ 31 ≤ x) (h2 : x < 2 ^ 31) : wrapInt x = x := by
  unfold wrapInt
  omega

theorem wrapInt_sub_wrapInt (x y : Int) : wrapInt (wrapInt x - y) = wrapInt (x - y) := by
  unfold wrapInt
  omega

theorem wrapInt_sub_wrapInt_right (x y : Int) : wrapInt (x - wrapInt y) = wrapInt (x - y) := by
  unfold wrapInt
  omega

/-- C19: in `updateUnreadBadge`, with a shown chat of unread count `s`, the
counter the badge text is made of is the `int` difference `b - s` of the global
badge value and `s` when muted chats are included or the shown chat is not
muted (so it is `b - s` itself whenever that difference is an `int`), and it is
`b` when the shown chat is muted and muted chats are excluded; the text given
to the badge is the text of that counter. -/
theorem unread_counter_excludes_shown (env : UnreadEnv) (s : Int) (mute : Bool)
    (hshown : env.historyShown = some (s, mute))
    (hb1 : -2 ^ 31 ≤ env.unreadBadge) (hb2 : env.unreadBadge < 2 ^ 31) :
    ((env.includeMuted = true ∨ mute = false) →
        HistoryTopBarWidget.unreadCounter env = wrapInt (env.unreadBadge - s) ∧
          (-2 ^ 31 ≤ env.unreadBadge - s → env.unreadBadge - s < 2 ^ 31 →
            HistoryTopBarWidget.unreadCounter env = env.unreadBadge - s)) ∧
      ((mute = true ∧ env.includeMuted = false) →
        HistoryTopBarWidget.unreadCounter env = env.unreadBadge) ∧
      ∀ (w : HistoryTopBarWidget) (old : List Char × Bool), w.unreadBadge = some old →
        Option.map Prod.fst (HistoryTopBarWidget.updateUnreadBadge env w).unreadBadge =
          some (HistoryTopBarWidget.unreadBadgeText (HistoryTopBarWidget.unreadCounter env)) := by
  have key : (env.includeMuted = true ∨ mute = false) →
      HistoryTopBarWidget.unreadCounter env = wrapInt (env.unreadBadge - s) := by
    intro h
    unfold HistoryTopBarWidget.unreadCounter HistoryTopBarWidget.unreadFullCounter
      HistoryTopBarWidget.unreadMutedCounter
    rw [hshown]
    rcases h with h | h
    · simp only [h, if_true]
      unfold wrapInt
      omega
    · subst h
      cases hi : env.includeMuted
      · simp only [Bool.false_eq_true, if_false]
        unfold wrapInt
        omega
      · simp only [if_true]
        unfold wrapInt
        omega
  refine ⟨fun h => ⟨key h, fun h1 h2 => (key h).trans (wrapInt_of_range _ h1 h2)⟩, ?_, ?_⟩
  · rintro ⟨hm, hi⟩
    subst hm
    unfold HistoryTopBarWidget.unreadCounter HistoryTopBarWidget.unreadFullCounter
      HistoryTopBarWidget.unreadMutedCounter
    rw [hshown, hi]
    simp only [Bool.false_eq_true, if_false]
    unfold wrapInt
    omega
  · intro w old hw
    unfold HistoryTopBarWidget.updateUnreadBadge
    rw [hw]
    rfl

theorem unread_counter_excludes_shown_witness :
    HistoryTopBarWidget.unreadCounter ⟨5, 20, false, some (3, true)⟩ = 20 :=
  ((unread_counter_excludes_shown ⟨5, 20, false, some (3, true)⟩ 3 true rfl (by decide)
    (by decide)).2.1 ⟨rfl, rfl⟩)

/-! ## Cancelling the selection in the history top bar -/

/-- C20: `showSelected(state)` with `state.count == 0` leaves `_canDelete` and
`_canForward` as they were, sets `_selectedCount` to 0, and leaves the
visibility of the delete and forward buttons as it was. -/
theorem showSelected_cancelled (w : HistoryTopBarWidget) (state : SelectedState)
    (h : state.count = 0) :
    (HistoryTopBarWidget.showSelected w state).canDelete = w.canDelete ∧
      (HistoryTopBarWidget.showSelected w state).canForward = w.canForward ∧
      (HistoryTopBarWidget.showSelected w state).selectedCount = 0 ∧
      (HistoryTopBarWidget.showSelected w state).deleteVisible = w.deleteVisible ∧
      (HistoryTopBarWidget.showSelected w state).forwardVisible = w.forwardVisible := by
  unfold HistoryTopBarWidget.showSelected
  simp only [h, gt_iff_lt, lt_self_iff_false, false_and, decide_False, if_true, ne_eq,
    not_true_eq_false, or_self, if_false]
  split_ifs with h1 <;>
    first
      | exact ⟨rfl, rfl, rfl, rfl, rfl⟩
      | exact ⟨rfl, rfl, h1.1, rfl, rfl⟩

theorem showSelected_cancelled_witness :
    (HistoryTopBarWidget.showSelected
        ⟨2, true, false, false, true, false, some 2, 1, .cur_default, some (false, true), 4, 4, none⟩
        ⟨false, 0, 0, 0⟩).canDelete = true ∧
      (HistoryTopBarWidget.showSelected
        ⟨2, true, false, false, true, false, some 2, 1, .cur_default, some (false, true), 4, 4, none⟩
        ⟨false, 0, 0, 0⟩).selectedCount = 0 :=
  ⟨(showSelected_cancelled
      ⟨2, true, false, false, true, false, some 2, 1, .cur_default, some (false, true), 4, 4, none⟩
      ⟨false, 0, 0, 0⟩ rfl).1,
    (showSelected_cancelled
      ⟨2, true, false, false, true, false, some 2, 1, .cur_default, some (false, true), 4, 4, none⟩
      ⟨false, 0, 0, 0⟩ rfl).2.2.1⟩

/-! ## The check reply and the upload of the crash report -/

/-- C21: in `onCheckingFinished` with a check reply present and no send reply,
the report is uploaded (a POST with the report is made and `_sendReply` becomes
non-null) if and only if the trimmed reply is exactly `Report`; otherwise
nothing is posted, `_sendReply` stays null, and the sending state becomes
`SendingTooOld` for `Old`, `SendingUnofficial` for `Unofficial` and
`SendingDone` for every other reply. -/
theorem checking_finished_upload (env : CrashEnv) (w : LastCrashedWindow) (reply : List Char)
    (hcheck : w.checkReply = true) (hsend : w.sendReply = false) :
    ((LastCrashedWindow.onCheckingFinished env w reply).sendReply = true ↔
        QByteArray.trimmed reply = "Report".toList) ∧
      ((LastCrashedWindow.onCheckingFinished env w reply).posted ≠ w.posted ↔
        QByteArray.trimmed reply = "Report".toList) ∧
      (QByteArray.trimmed reply = "Report".toList →
        (LastCrashedWindow.onCheckingFinished env w reply).posted =
          w.posted ++ [LastCrashedWindow.getCrashReportRaw env.lastCrashDump w]) ∧
      (QByteArray.trimmed reply ≠ "Report".toList →
        (LastCrashedWindow.onCheckingFinished env w reply).posted = w.posted ∧
          (LastCrashedWindow.onCheckingFinished env w reply).sendReply = false ∧
          (LastCrashedWindow.onCheckingFinished env w reply).sendingState =
            (if QByteArray.trimmed reply = "Old".toList then .SendingTooOld
              else if QByteArray.trimmed reply = "Unofficial".toList then .SendingUnofficial
              else .SendingDone)) := by
  have hguard : ¬(w.checkReply = false ∨ w.sendReply = true) := by
    rw [hcheck, hsend]
    decide
  have hOld : "Old".toList ≠ "Report".toList := by decide
  have hUnofficial : "Unofficial".toList ≠ "Report".toList := by decide
  unfold LastCrashedWindow.onCheckingFinished
  rw [if_neg hguard]
  by_cases h1 : QByteArray.trimmed reply = "Old".toList
  · rw [if_pos h1, h1]
    exact ⟨iff_of_false (by rw [hsend]; decide) hOld,
      iff_of_false (fun h => h rfl) hOld, fun h => absurd h hOld,
      fun _ => ⟨rfl, hsend, by rw [if_pos rfl]⟩⟩
  · rw [if_neg h1]
    by_cases h2 : QByteArray.trimmed reply = "Unofficial".toList
    · rw [if_pos h2, h2]
      exact ⟨iff_of_false (by rw [hsend]; decide) hUnofficial,
        iff_of_false (fun h => h rfl) hUnofficial, fun h => absurd h hUnofficial,
        fun _ => ⟨rfl, hsend, by rw [if_neg (by decide), if_pos rfl]⟩⟩
    · rw [if_neg h2]
      by_cases h3 : QByteArray.trimmed reply = "Report".toList
      · rw [if_neg (not_not.mpr h3)]
        refine ⟨iff_of_true rfl h3, iff_of_true ?_ h3, fun _ => rfl, fun h => absurd h3 h⟩
        intro h
        have hlen := congrArg List.length h
        rw [List.length_append] at hlen
        simp at hlen
      · rw [if_pos h3]
        exact ⟨iff_of_false (by rw [hsend]; decide) h3, iff_of_false (fun h => h rfl) h3,
          fun h => absurd h h3, fun _ => ⟨rfl, hsend, by rw [if_neg h1, if_neg h2]⟩⟩

/-- Witness of C21: the server answers `Report` followed by a line feed, and
the report is posted. -/
theorem checking_finished_upload_witness :
    (LastCrashedWindow.onCheckingFinished (sampleCrashEnv "Version: 1.2.8 alpha\n".toList)
        (LastCrashedWindow.onSendReport
          (LastCrashedWindow.create (sampleCrashEnv "Version: 1.2.8 alpha\n".toList)))
        "Report\n".toList).posted =
      [] ++ ["Version: 1.2.8 alpha\n".toList] :=
  (checking_finished_upload (sampleCrashEnv "Version: 1.2.8 alpha\n".toList)
    (LastCrashedWindow.onSendReport
      (LastCrashedWindow.create (sampleCrashEnv "Version: 1.2.8 alpha\n".toList)))
    "Report\n".toList rfl rfl).2.2.1 (by decide)

/-! ## A report judged not sendable stays so -/

namespace LastCrashedWindow

theorem setUpdatingState_idle (checkReadyUpdate : Bool) (w : LastCrashedWindow)
    (state : UpdatingState) (force : Bool) (h : w.sendingState = .SendingNoReport) :
    (setUpdatingState checkReadyUpdate w state force).sendingState = .SendingNoReport ∧
      (setUpdatingState checkReadyUpdate w state force).checkReply = w.checkReply ∧
      (setUpdatingState checkReadyUpdate w state force).sendReply = w.sendReply ∧
      (setUpdatingState checkReadyUpdate w state force).posted = w.posted := by
  unfold setUpdatingState
  split_ifs <;> (try split) <;> exact ⟨h, rfl, rfl, rfl⟩

theorem step_idle_report (env : CrashEnv) (w : LastCrashedWindow) (e : Event)
    (h : w.sendingState = .SendingNoReport) (hcheck : w.checkReply = false)
    (hsend : w.sendReply = false) :
    (step env w e).sendingState = .SendingNoReport ∧ (step env w e).checkReply = false ∧
      (step env w e).sendReply = false ∧ (step env w e).posted = w.posted := by
  have key : ∀ state force,
      (setUpdatingState env.checkReadyUpdate w state force).sendingState = .SendingNoReport ∧
        (setUpdatingState env.checkReadyUpdate w state force).checkReply = false ∧
        (setUpdatingState env.checkReadyUpdate w state force).sendReply = false ∧
        (setUpdatingState env.checkReadyUpdate w state force).posted = w.posted := by
    intro state force
    obtain ⟨a, b, c, d⟩ := setUpdatingState_idle env.checkReadyUpdate w state force h
    exact ⟨a, b.trans hcheck, c.trans hsend, d⟩
  cases e with
  | updateChecking => exact key _ _
  | updateLatest => exact key _ _
  | updateDownloading ready total => exact key _ _
  | updateReady => exact key _ _
  | updateFailed => exact key _ _
  | updateSkip =>
    rw [show step env w .updateSkip = onUpdateSkip env w from rfl]
    unfold onUpdateSkip
    rw [if_pos h]
    exact ⟨h, hcheck, hsend, rfl⟩
  | networkSettingsSaved =>
    rw [show step env w .networkSettingsSaved = onNetworkSettingsSaved env w from rfl]
    unfold onNetworkSettingsSaved
    have hno : ¬(w.sendingState = .SendingFail ∨ w.sendingState = .SendingProgress) := by
      rw [h]
      decide
    rw [if_neg hno]
    split_ifs <;> exact ⟨h, hcheck, hsend, rfl⟩
  | sendingProgress uploaded total =>
    rw [show step env w (.sendingProgress uploaded total) = onSendingProgress w uploaded total from rfl]
    unfold onSendingProgress
    have hyes : w.sendingState ≠ .SendingProgress ∧ w.sendingState ≠ .SendingUploading := by
      rw [h]
      decide
    rw [if_pos hyes]
    exact ⟨h, hcheck, hsend, rfl⟩
  | checkingFinished reply =>
    rw [show step env w (.checkingFinished reply) = onCheckingFinished env w reply from rfl]
    unfold onCheckingFinished
    rw [if_pos (Or.inl hcheck)]
    exact ⟨h, hcheck, hsend, rfl⟩
  | sendingFinished =>
    rw [show step env w .sendingFinished = onSendingFinished w from rfl]
    unfold onSendingFinished
    have hno : ¬w.sendReply = true := by
      rw [hsend]
      decide
    rw [if_neg hno]
    exact ⟨h, hcheck, hsend, rfl⟩

theorem run_idle_report (env : CrashEnv) :
    ∀ (events : List Event) (w : LastCrashedWindow), w.sendingState = .SendingNoReport →
      w.checkReply = false → w.sendReply = false →
      (run env w events).sendingState = .SendingNoReport ∧ (run env w events).checkReply = false ∧
        (run env w events).sendReply = false ∧ (run env w events).posted = w.posted
  | [], _, h, hcheck, hsend => ⟨h, hcheck, hsend, rfl⟩
  | e :: es, w, h, hcheck, hsend => by
    obtain ⟨a, b, c, d⟩ := step_idle_report env w e h hcheck hsend
    obtain ⟨a2, b2, c2, d2⟩ := run_idle_report env es (step env w e) a b c
    exact ⟨a2, b2, c2, d2.trans d⟩

end LastCrashedWindow

/-- C22: when `_sendingState` is `SendingNoReport` and no network reply is in
flight, the state is still `SendingNoReport` after any of `onUpdateChecking`,
`onUpdateLatest`, `onUpdateDownloading`, `onUpdateReady`, `onUpdateFailed`,
`onUpdateSkip`, `onNetworkSettingsSaved`, `onSendingProgress`,
`onCheckingFinished` and `onSendingFinished`, and the event puts no reply in
flight; so after every sequence of these events the state is still
`SendingNoReport` and nothing was posted. -/
theorem no_report_preserved (env : CrashEnv) (w : LastCrashedWindow)
    (h : w.sendingState = .SendingNoReport) (hcheck : w.checkReply = false)
    (hsend : w.sendReply = false) :
    (∀ e : LastCrashedWindow.Event,
        (LastCrashedWindow.step env w e).sendingState = .SendingNoReport ∧
          (LastCrashedWindow.step env w e).checkReply = false ∧
          (LastCrashedWindow.step env w e).sendReply = false) ∧
      ∀ events : List LastCrashedWindow.Event,
        (LastCrashedWindow.run env w events).sendingState = .SendingNoReport ∧
          (LastCrashedWindow.run env w events).posted = w.posted :=
  ⟨fun e =>
      ⟨(LastCrashedWindow.step_idle_report env w e h hcheck hsend).1,
        (LastCrashedWindow.step_idle_report env w e h hcheck hsend).2.1,
        (LastCrashedWindow.step_idle_report env w e h hcheck hsend).2.2.1⟩,
    fun events =>
      ⟨(LastCrashedWindow.run_idle_report env events w h hcheck hsend).1,
        (LastCrashedWindow.run_idle_report env events w h hcheck hsend).2.2.2⟩⟩

/-- Witness of C22: the window made for an empty crash dump, after the update
check failed, the network settings were saved, and the user skipped the
update. -/
theorem no_report_preserved_witness :
    (LastCrashedWindow.create (sampleCrashEnv [])).sendingState = .SendingNoReport ∧
      (LastCrashedWindow.run (sampleCrashEnv []) (LastCrashedWindow.create (sampleCrashEnv []))
        [.updateFailed, .networkSettingsSaved, .checkingFinished "Report".toList,
          .updateSkip]).sendingState = .SendingNoReport :=
  ⟨by decide,
    ((no_report_preserved (sampleCrashEnv []) (LastCrashedWindow.create (sampleCrashEnv []))
      (by decide) (by decide) (by decide)).2 _).1⟩

/-! ## The fields of the crash report -/

theorem isSpace_of_isDigit (c : Char) (h : isDigit c = true) : QChar.isSpace c = false := by
  unfold isDigit at h
  unfold QChar.isSpace
  simp only [Bool.and_eq_true, decide_eq_true_eq] at h
  simp only [Bool.or_eq_false_iff, Bool.and_eq_false_iff, decide_eq_false_iff_not]
  omega

theorem dropWhile_isSpace_of_digits (l : List Char) (h : ∀ c ∈ l, isDigit c = true) :
    l.dropWhile QChar.isSpace = l := by
  cases l with
  | nil => rfl
  | cons c cs =>
    rw [List.dropWhile_cons_of_neg]
    rw [isSpace_of_isDigit c (h c (List.mem_cons_self c cs))]
    decide

theorem trimmed_of_digits (l : List Char) (h : ∀ c ∈ l, isDigit c = true) :
    QString.trimmed l = l := by
  unfold QString.trimmed
  rw [dropWhile_isSpace_of_digits l h,
    dropWhile_isSpace_of_digits l.reverse (fun c hc => h c (List.mem_reverse.mp hc)),
    List.reverse_reverse]

theorem digitsValue_eq_decimalValue (digits : List Char) :
    digitsValue digits = decimalValue digits := by
  unfold digitsValue decimalValue
  induction digits using List.reverseRecOn with
  | nil => rfl
  | append_singleton init last ih =>
    rw [List.foldl_append, List.map_append, List.reverse_append]
    simp only [List.foldl_cons, List.foldl_nil, List.map_cons, List.map_nil,
      List.reverse_cons, List.reverse_nil, List.nil_append, List.singleton_append,
      Nat.ofDigits_cons]
    rw [ih]
    omega

theorem toLongLong_of_digits (l : List Char) (h : ∀ c ∈ l, isDigit c = true) :
    QString.toLongLong l = if decimalValue l < 2 ^ 63 then (decimalValue l : Int) else 0 := by
  unfold QString.toLongLong
  rw [trimmed_of_digits l h, ← digitsValue_eq_decimalValue]
  have hall : l.all isDigit = true := List.all_eq_true.mpr h
  split
  · simp [digitsValue]
  · rename_i digits
    have := h '-' (List.mem_cons_self _ _)
    exact absurd this (by decide)
  · rename_i digits
    have := h '+' (List.mem_cons_self _ _)
    exact absurd this (by decide)
  · rename_i c digits h1 h2
    by_cases hv : digitsValue (c :: digits) < 2 ^ 63
    · rw [if_pos ⟨hall, hv⟩, if_pos hv]
    · rw [if_neg (fun k => hv k.2), if_neg hv]

theorem number_toLongLong_digits (remainder : List Char) :
    (if QString.endsWith remainder " beta".toList then
        QString.number (-(QString.toLongLong (remainder.filter isDigit)))
      else QString.number (QString.toLongLong (remainder.filter isDigit))) =
      QString.number (versionFieldValue remainder) := by
  have hd : ∀ c ∈ remainder.filter isDigit, isDigit c = true :=
    fun c hc => (List.mem_filter.mp hc).2
  rw [toLongLong_of_digits _ hd]
  unfold versionFieldValue
  by_cases hv : decimalValue (remainder.filter isDigit) < 2 ^ 63
  · rw [if_pos hv, if_pos hv]
    split_ifs <;> rfl
  · rw [if_neg hv, if_neg hv]
    split_ifs <;> rfl

namespace LastCrashedWindow

theorem getReportFieldLines_none (name label : List Char) :
    ∀ lines : List (List Char),
      (∀ line ∈ lines, QString.startsWith (QString.trimmed line) label = false) →
      getReportFieldLines name label lines = []
  | [], _ => rfl
  | line :: rest, h => by
    unfold getReportFieldLines
    rw [if_neg (by rw [h line (List.mem_cons_self _ _)]; decide)]
    exact getReportFieldLines_none name label rest
      (fun l hl => h l (List.mem_cons_of_mem _ hl))

theorem getReportFieldLines_first (name label line : List Char) (after : List (List Char))
    (hline : QString.startsWith (QString.trimmed line) label = true) :
    ∀ before : List (List Char),
      (∀ l ∈ before, QString.startsWith (QString.trimmed l) label = false) →
      getReportFieldLines name label (before ++ line :: after) =
        if name = "version".toList then
          QString.number
            (versionFieldValue (QString.trimmed (QString.mid (QString.trimmed line) label.length)))
        else QString.trimmed (QString.mid (QString.trimmed line) label.length)
  | [], _ => by
    rw [List.nil_append]
    unfold getReportFieldLines
    rw [if_pos hline]
    by_cases hn : name = "version".toList
    · rw [if_pos hn, if_pos hn]
      exact number_toLongLong_digits _
    · rw [if_neg hn, if_neg hn]
  | l :: before, h => by
    rw [List.cons_append]
    unfold getReportFieldLines
    rw [if_neg (by rw [h l (List.mem_cons_self _ _)]; decide)]
    exact getReportFieldLines_first name label line after hline before
      (fun x hx => h x (List.mem_cons_of_mem _ hx))

end LastCrashedWindow

/-- C25, as stated, fails at a version of twenty digits: the integer made of
the digits is 99999999999999999999, and `getReportField` returns `0`. -/
theorem report_version_counterexample :
    LastCrashedWindow.getReportField
        (LastCrashedWindow.initial (sampleCrashEnv "Version: 99999999999999999999\n".toList))
        "version".toList "Version:".toList = "0".toList ∧
      QString.split '\n' "Version: 99999999999999999999\n".toList =
        ["Version: 99999999999999999999".toList, []] ∧
      QString.trimmed (QString.mid (QString.trimmed "Version: 99999999999999999999".toList) 8) =
        "99999999999999999999".toList ∧
      QString.number (decimalValue ("99999999999999999999".toList.filter isDigit)) =
        "99999999999999999999".toList := by
  decide

/-- C25, amended: `getReportField` returns the empty text when no line of the
report (split on line feeds) starts with the prefix after trimming; otherwise
it uses the first such line and returns its trimmed remainder after the prefix,
except for the name `version`, where it returns the decimal form of the integer
made of the remainder's digits only, taken as 0 when it does not fit in a
signed 64-bit integer, negated when the remainder ends with ` beta`. -/
theorem getReportField_first_line (w : LastCrashedWindow) (name label : List Char) :
    ((∀ line ∈ QString.split '\n' w.reportText,
          QString.startsWith (QString.trimmed line) label = false) →
        LastCrashedWindow.getReportField w name label = []) ∧
      ∀ (before : List (List Char)) (line : List Char) (after : List (List Char)),
        QString.split '\n' w.reportText = before ++ line :: after →
        (∀ l ∈ before, QString.startsWith (QString.trimmed l) label = false) →
        QString.startsWith (QString.trimmed line) label = true →
        LastCrashedWindow.getReportField w name label =
          if name = "version".toList then
            QString.number
              (versionFieldValue
                (QString.trimmed (QString.mid (QString.trimmed line) label.length)))
          else QString.trimmed (QString.mid (QString.trimmed line) label.length) := by
  constructor
  · intro h
    exact LastCrashedWindow.getReportFieldLines_none name label _ h
  · intro before line after hsplit hbefore hline
    unfold LastCrashedWindow.getReportField
    rw [hsplit]
    exact LastCrashedWindow.getReportFieldLines_first name label line after hline before hbefore

/-- Witness of the amended C25: the version of a beta build, read from the
second line of the report. -/
theorem getReportField_first_line_witness :
    LastCrashedWindow.getReportField
        (LastCrashedWindow.initial (sampleCrashEnv "ApiId: 17\n Version: 1.2.8 beta\n".toList))
        "version".toList "Version:".toList = "-128".toList :=
  ((getReportField_first_line
      (LastCrashedWindow.initial (sampleCrashEnv "ApiId: 17\n Version: 1.2.8 beta\n".toList))
      "version".toList "Version:".toList).2
    ["ApiId: 17".toList] " Version: 1.2.8 beta".toList [[]] (by decide) (by decide)
      (by decide)).trans (by decide)

/-! ## Optional values -/

namespace base

theorem optional_variant_cases {T : Type} (v : optional_variant T) :
    v = optional_variant.ctor ∨ ∃ x, v = optional_variant.ctor_value x := by
  obtain ⟨impl⟩ := v
  cases impl with
  | of_none_type n =>
    cases n
    exact Or.inl rfl
  | of_Type x => exact Or.inr ⟨x, rfl⟩

theorem get_if_ctor_value {T : Type} (x : T) :
    get_if (some (optional_variant.ctor_value x)) = some x := rfl

theorem get_if_ctor {T : Type} : get_if (some (optional_variant.ctor : optional_variant T)) = none :=
  rfl

end base

/-- C23: for every `optional<T>` `v` and every callable `f` with a non-void
result, `v | f` returns (no `Expects` fails); it is empty when `v` is empty;
when `v` holds `x` and `f` returns a plain `U`, it is the `optional<U>` holding
`f(x)`; when `f` returns an `optional<U>`, it is `f(x)` itself, and its type is
`optional<U>`, not `optional<optional<U>>`. -/
theorem operator_pipe_wraps_once (plain : Nat → Type) (T : Type) (v : base.optional T) :
    (∀ index, base.optional_wrap_once (.plain index) = .optional (.plain index)) ∧
      (∀ U, base.optional_wrap_once (.optional U) = .optional U ∧
        base.optional_wrap_once (.optional U) ≠ .optional (.optional U)) ∧
      (base.optional_variant.has_value v = false →
        (∀ (index : Nat) (f : T → plain index),
          base.operator_pipe plain (.type (.plain index)) v f =
            .ok (base.optional_variant.ctor : base.optional (plain index))) ∧
        ∀ (U : base.Ty) (f : T → base.optional (U.denote plain)),
          base.operator_pipe plain (.type (.optional U)) v f =
            .ok (base.optional_variant.ctor : base.optional (U.denote plain))) ∧
      ∀ x : T, base.get_if (some v) = some x →
        (∀ (index : Nat) (f : T → plain index),
          base.operator_pipe plain (.type (.plain index)) v f =
            .ok (base.optional_variant.ctor_value (f x) : base.optional (plain index))) ∧
        ∀ (U : base.Ty) (f : T → base.optional (U.denote plain)),
          base.operator_pipe plain (.type (.optional U)) v f = .ok (f x) := by
  refine ⟨fun _ => rfl, fun U => ⟨rfl, ?_⟩, ?_, ?_⟩
  · intro h
    have hs := congrArg sizeOf h
    simp [base.optional_wrap_once] at hs
  · intro h
    rcases base.optional_variant_cases v with hv | ⟨y, hv⟩
    · subst hv
      exact ⟨fun _ _ => rfl, fun _ _ => rfl⟩
    · subst hv
      exact absurd (show true = false from h) (by decide)
  · intro x hx
    rcases base.optional_variant_cases v with hv | ⟨y, hv⟩
    · subst hv
      rw [base.get_if_ctor] at hx
      exact absurd hx (by simp)
    · subst hv
      rw [base.get_if_ctor_value] at hx
      cases hx
      exact ⟨fun _ _ => rfl, fun _ _ => rfl⟩

/-- Witness of C23: an `optional<int>` holding 5, chained with a method that
gives an `int` and with one that gives an `optional<int>`. -/
theorem operator_pipe_wraps_once_witness :
    base.operator_pipe (fun _ => Int) (.type (.plain 0))
        (base.optional_variant.ctor_value (5 : Int)) (fun x => x + 1) =
        .ok (base.optional_variant.ctor_value (6 : Int)) ∧
      base.operator_pipe (fun _ => Int) (.type (.optional (.plain 0)))
        (base.optional_variant.ctor_value (5 : Int))
        (fun x => (base.optional_variant.ctor_value (x + 1) : base.optional Int)) =
        .ok (base.optional_variant.ctor_value (6 : Int)) :=
  ⟨((operator_pipe_wraps_once (fun _ => Int) Int (base.optional_variant.ctor_value 5)).2.2.2 5
      rfl).1 0 (fun x => x + 1),
    ((operator_pipe_wraps_once (fun _ => Int) Int (base.optional_variant.ctor_value 5)).2.2.2 5
      rfl).2 (.plain 0) (fun x => base.optional_variant.ctor_value (x + 1))⟩

/-- C24: a default-constructed optional has no value and one constructed from
a `T` has one; `get_if<T>(&v)` is non-null exactly when `v.has_value()`, and
then points to the stored value; `operator*` and `operator->` return the
stored value when `v.has_value()`, and their `Expects` fails exactly when `v`
is empty. -/
theorem optional_access (T : Type) (v : base.optional T) :
    base.optional_variant.has_value (base.optional_variant.ctor : base.optional T) = false ∧
      (∀ x : T, base.optional_variant.has_value (base.optional_variant.ctor_value x) = true) ∧
      ((base.get_if (some v)).isSome = base.optional_variant.has_value v) ∧
      (∀ x : T, v = base.optional_variant.ctor_value x → base.get_if (some v) = some x) ∧
      (base.optional_variant.has_value v = true →
        ∃ stored : T, v = base.optional_variant.ctor_value stored ∧
          base.get_if (some v) = some stored ∧
          base.optional.operator_star v = .ok stored ∧
          base.optional.operator_arrow v = .ok (some stored)) ∧
      (base.optional.operator_star v = .error .Expects ↔
        base.optional_variant.has_value v = false) ∧
      (base.optional.operator_arrow v = .error .Expects ↔
        base.optional_variant.has_value v = false) := by
  refine ⟨rfl, fun _ => rfl, ?_, ?_, ?_, ?_, ?_⟩
  · rcases base.optional_variant_cases v with hv | ⟨y, hv⟩ <;> subst hv <;> rfl
  · intro x hx
    subst hx
    rfl
  · intro h
    rcases base.optional_variant_cases v with hv | ⟨y, hv⟩
    · subst hv
      exact absurd (show false = true from h) (by decide)
    · subst hv
      exact ⟨y, rfl, rfl, rfl, rfl⟩
  · rcases base.optional_variant_cases v with hv | ⟨y, hv⟩
    · subst hv
      exact iff_of_true rfl rfl
    · subst hv
      exact iff_of_false (fun h => by cases h)
        (fun h => absurd (show true = false from h) (by decide))
  · rcases base.optional_variant_cases v with hv | ⟨y, hv⟩
    · subst hv
      exact iff_of_true rfl rfl
    · subst hv
      exact iff_of_false (fun h => by cases h)
        (fun h => absurd (show true = false from h) (by decide))

/-- Witness of C24: an `optional<int>` constructed from 7. -/
theorem optional_access_witness :
    ∃ stored : Int,
      (base.optional_variant.ctor_value (7 : Int) : base.optional Int) =
          base.optional_variant.ctor_value stored ∧
        base.get_if (some (base.optional_variant.ctor_value (7 : Int))) = some stored ∧
        base.optional.operator_star (base.optional_variant.ctor_value (7 : Int)) = .ok stored ∧
        base.optional.operator_arrow (base.optional_variant.ctor_value (7 : Int)) =
          .ok (some stored) :=
  (optional_access Int (base.optional_variant.ctor_value 7)).2.2.2.2.1 rfl
